import Mathlib

/-!
Shallow embedding of the scoring, comparison and aggregation pipeline of the
Website-Crawler repository (competitor_analyzer.py, advanced_competitor_analyzer.py,
comprehensive_seo_scorer.py, advanced_seo_audit_orchestrator.py, link_analyzer.py).

Modelling conventions:
* Python floats are modelled as exact rationals (ℚ); every quantity the scorers
  manipulate is produced by integer deductions, so no rounding behaviour is lost.
* Python dictionaries with a fixed key set are modelled as structures; a key that
  the code reads with `dict.get(k, default)` and never distinguishes from the
  default is modelled by a plain field (absent ≡ default).  Keys whose absence is
  observable are modelled with `Option`.
* Python dictionaries used as finite maps (keyword tables, counters) are modelled
  as association lists in first-occurrence key order with last-binding values,
  exactly the iteration/override behaviour of `dict`.
* A raised exception is modelled with `Except String`; the orchestrator's
  `except Exception as e: section = {'error': str(e)}` becomes `.error e`.
-/

namespace Crawler

set_option maxRecDepth 8000

/-- One insertion into a Python `dict` built by a comprehension: if the key is
already present its value is overwritten in place, otherwise the pair is appended
(first-occurrence key order). -/
def dictInsert {α : Type} (acc : List (String × α)) (p : String × α) : List (String × α) :=
  if acc.any (fun q => q.1 == p.1) then
    acc.map (fun q => if q.1 == p.1 then (q.1, p.2) else q)
  else acc ++ [p]

/-- `pyDict l` is the Python dict `{k: v for (k, v) in l}`:
first-occurrence key order, later bindings override earlier ones. -/
def pyDict {α : Type} (l : List (String × α)) : List (String × α) :=
  l.foldl dictInsert []

/-- `d[k]` lookup on an association list (first binding wins; after `pyDict`
keys are unique so this is the dict lookup). -/
def dictLookup {α : Type} (d : List (String × α)) (k : String) : Option α :=
  (d.find? (fun q => q.1 == k)).map (fun q => q.2)

/-- Key list of an association list. -/
def keysOf {α : Type} (l : List (String × α)) : List String :=
  l.map Prod.fst

/-- The entries of `d1` whose key also occurs in `d2`: the comprehension
`for word in set(words1) & set(words2)`, iterated in `d1`'s key order. -/
def dict_common {α β : Type} (d1 : List (String × α)) (d2 : List (String × β)) :
    List (String × α) :=
  d1.filter (fun p => d2.any (fun q => q.1 == p.1))

/-- The entries of `d1` whose key does not occur in `d2`: the loop
`for word, count in words1.items(): if word not in words2`. -/
def dict_unique {α β : Type} (d1 : List (String × α)) (d2 : List (String × β)) :
    List (String × α) :=
  d1.filter (fun p => !(d2.any (fun q => q.1 == p.1)))

/-!
## CompetitorAnalyzer (competitor_analyzer.py)

`_analyze_url` returns a result dictionary; `_compare_results` and
`_determine_winner` read only the fields below.  `load_time` is `Option`al
because the code reads it with two different defaults (999 for the winner
comparison, 0 for the difference), so a missing key is observable.
-/

/-- Fields of the result dict of `CompetitorAnalyzer._analyze_url` that the
comparison functions read. -/
structure UrlResult where
  load_time : Option ℚ := none
  error_count : ℕ := 0
  seo_score : ℕ := 0
  keywords : List (String × ℕ) := []
  title : String := ""
  title_length : ℕ := 0
  meta_description : String := ""
  meta_description_length : ℕ := 0
  h1_count : ℕ := 0
  h2_count : ℕ := 0
  word_count : ℕ := 0
  images_count : ℕ := 0
  images_with_alt : ℕ := 0
deriving Repr, DecidableEq

/-- Entry of the `common_keywords` list built by
`CompetitorAnalyzer._find_common_keywords`. -/
structure CommonKeyword where
  keyword : String
  your_count : ℕ
  competitor_count : ℕ
  total : ℕ
deriving Repr, DecidableEq

/-- Entry of the unique-keyword lists built by
`CompetitorAnalyzer._find_unique_keywords`. -/
structure UniqueKeyword where
  keyword : String
  count : ℕ
deriving Repr, DecidableEq

/-- The common-keyword entries before sorting and truncation
(the body of `_find_common_keywords`). -/
def common_keywords_full (keywords1 keywords2 : List (String × ℕ)) : List CommonKeyword :=
  let words1 := pyDict keywords1
  let words2 := pyDict keywords2
  (dict_common words1 words2).map (fun p =>
    let c2 := (dictLookup words2 p.1).getD 0
    { keyword := p.1, your_count := p.2, competitor_count := c2, total := p.2 + c2 })

/-- `CompetitorAnalyzer._find_common_keywords`: common entries sorted by total
frequency descending (Python's stable `list.sort`), truncated to the top 20. -/
def find_common_keywords (keywords1 keywords2 : List (String × ℕ)) : List CommonKeyword :=
  ((common_keywords_full keywords1 keywords2).insertionSort
    (fun a b => b.total ≤ a.total)).take 20

/-- The unique-keyword entries before sorting and truncation
(the body of `_find_unique_keywords`). -/
def unique_keywords_full (keywords1 keywords2 : List (String × ℕ)) : List UniqueKeyword :=
  (dict_unique (pyDict keywords1) (pyDict keywords2)).map (fun p =>
    { keyword := p.1, count := p.2 })

/-- `CompetitorAnalyzer._find_unique_keywords`: entries of the first list whose
word is absent from the second, sorted by count descending, top 20. -/
def find_unique_keywords (keywords1 keywords2 : List (String × ℕ)) : List UniqueKeyword :=
  ((unique_keywords_full keywords1 keywords2).insertionSort
    (fun a b => b.count ≤ a.count)).take 20

/-- The `load_speed` block of `_compare_results`. -/
structure LoadSpeedComparison where
  winner : String
  difference : ℚ
  your_site : ℚ
  competitor : ℚ
deriving Repr, DecidableEq

/-- The `errors` block of `_compare_results`. -/
structure ErrorsComparison where
  winner : String
  your_site : ℕ
  competitor : ℕ
deriving Repr, DecidableEq

/-- The `seo_score` block of `_compare_results`. -/
structure SeoScoreComparison where
  winner : String
  your_site : ℕ
  competitor : ℕ
  difference : ℤ
deriving Repr, DecidableEq

/-- The `on_page_seo` block of `_compare_results` (nested dict flattened to
one record; every field is a verbatim copy of an input field). -/
structure OnPageSeoComparison where
  title_your_site : String
  title_competitor : String
  title_your_length : ℕ
  title_competitor_length : ℕ
  meta_your_site : String
  meta_competitor : String
  meta_your_length : ℕ
  meta_competitor_length : ℕ
  h1_count_your_site : ℕ
  h1_count_competitor : ℕ
  h2_count_your_site : ℕ
  h2_count_competitor : ℕ
  word_count_your_site : ℕ
  word_count_competitor : ℕ
  images_total_your_site : ℕ
  images_with_alt_your_site : ℕ
  images_total_competitor : ℕ
  images_with_alt_competitor : ℕ
deriving Repr, DecidableEq

/-- The `keywords` block of `_compare_results`. -/
structure KeywordsComparison where
  common_keywords : List CommonKeyword
  unique_to_your_site : List UniqueKeyword
  unique_to_competitor : List UniqueKeyword
deriving Repr, DecidableEq

/-- The comparison dict returned by `CompetitorAnalyzer._compare_results`
(the `backlinks` block, a verbatim copy of the two inputs, is omitted since
nothing downstream reads it). -/
structure Comparison where
  load_speed : LoadSpeedComparison
  errors : ErrorsComparison
  seo_score : SeoScoreComparison
  on_page_seo : OnPageSeoComparison
  keywords : KeywordsComparison
deriving Repr, DecidableEq

/-- `CompetitorAnalyzer._compare_results`. -/
def compare_results (result1 result2 : UrlResult) : Comparison :=
  { load_speed :=
    { winner :=
        if result1.load_time.getD 999 < result2.load_time.getD 999 then "your_site"
        else "competitor",
      difference := |result1.load_time.getD 0 - result2.load_time.getD 0|,
      your_site := result1.load_time.getD 0,
      competitor := result2.load_time.getD 0 },
    errors :=
    { winner :=
        if result1.error_count < result2.error_count then "your_site" else "competitor",
      your_site := result1.error_count,
      competitor := result2.error_count },
    seo_score :=
    { winner :=
        if result1.seo_score > result2.seo_score then "your_site" else "competitor",
      your_site := result1.seo_score,
      competitor := result2.seo_score,
      difference := (result1.seo_score : ℤ) - (result2.seo_score : ℤ) },
    on_page_seo :=
    { title_your_site := result1.title, title_competitor := result2.title,
      title_your_length := result1.title_length,
      title_competitor_length := result2.title_length,
      meta_your_site := result1.meta_description, meta_competitor := result2.meta_description,
      meta_your_length := result1.meta_description_length,
      meta_competitor_length := result2.meta_description_length,
      h1_count_your_site := result1.h1_count, h1_count_competitor := result2.h1_count,
      h2_count_your_site := result1.h2_count, h2_count_competitor := result2.h2_count,
      word_count_your_site := result1.word_count, word_count_competitor := result2.word_count,
      images_total_your_site := result1.images_count,
      images_with_alt_your_site := result1.images_with_alt,
      images_total_competitor := result2.images_count,
      images_with_alt_competitor := result2.images_with_alt },
    keywords :=
    { common_keywords := find_common_keywords result1.keywords result2.keywords,
      unique_to_your_site := find_unique_keywords result1.keywords result2.keywords,
      unique_to_competitor := find_unique_keywords result2.keywords result1.keywords } }

/-- The `wins` tally of `_determine_winner`. -/
structure Wins where
  your_site : ℕ
  competitor : ℕ
  tie : ℕ
deriving Repr, DecidableEq

/-- The dict returned by `CompetitorAnalyzer._determine_winner`. -/
structure WinnerResult where
  overall : String
  wins : Wins
  summary : String
deriving Repr, DecidableEq

/-- `CompetitorAnalyzer._determine_winner`. -/
def determine_winner (comparison : Comparison) : WinnerResult :=
  let wins : Wins := { your_site := 0, competitor := 0, tie := 0 }
  let wins :=
    if comparison.load_speed.winner = "your_site" then
      { wins with your_site := wins.your_site + 1 }
    else if comparison.load_speed.winner = "competitor" then
      { wins with competitor := wins.competitor + 1 }
    else { wins with tie := wins.tie + 1 }
  let wins :=
    if comparison.errors.winner = "your_site" then
      { wins with your_site := wins.your_site + 1 }
    else if comparison.errors.winner = "competitor" then
      { wins with competitor := wins.competitor + 1 }
    else { wins with tie := wins.tie + 1 }
  let wins :=
    if comparison.seo_score.winner = "your_site" then
      { wins with your_site := wins.your_site + 1 }
    else if comparison.seo_score.winner = "competitor" then
      { wins with competitor := wins.competitor + 1 }
    else { wins with tie := wins.tie + 1 }
  { overall :=
      if wins.your_site > wins.competitor then "your_site"
      else if wins.competitor > wins.your_site then "competitor"
      else "tie",
    wins := wins,
    summary := "Your site wins " ++ toString wins.your_site ++
      " categories, competitor wins " ++ toString wins.competitor ++ " categories" }

/-!
## AdvancedCompetitorAnalyzer keyword set functions
(advanced_competitor_analyzer.py, `_find_common_keywords_advanced` and
`_find_unique_keywords_advanced`; keywords are (term, count, importance) triples)
-/

/-- Round-half-to-even of a rational, the rounding of Python's `round`. -/
def roundHalfEven (q : ℚ) : ℤ :=
  let f := ⌊q⌋
  let r := q - (f : ℚ)
  if r < 1 / 2 then f
  else if r > 1 / 2 then f + 1
  else if f % 2 = 0 then f else f + 1

/-- Python `round(q, 4)`. -/
def pyRound4 (q : ℚ) : ℚ :=
  (roundHalfEven (q * 10000) : ℚ) / 10000

/-- Python `round(q, 1)`. -/
def pyRound1 (q : ℚ) : ℚ :=
  (roundHalfEven (q * 10) : ℚ) / 10

/-- Entry of the list built by `_find_common_keywords_advanced`. -/
structure CommonKeywordAdv where
  keyword : String
  your_count : ℕ
  competitor_count : ℕ
  your_importance : ℚ
  competitor_importance : ℚ
  total_count : ℕ
  total_importance : ℚ
deriving Repr, DecidableEq

/-- Entry of the lists built by `_find_unique_keywords_advanced`. -/
structure UniqueKeywordAdv where
  keyword : String
  count : ℕ
  importance : ℚ
deriving Repr, DecidableEq

/-- The advanced common-keyword entries before sorting and truncation. -/
def common_keywords_advanced_full (keywords1 keywords2 : List (String × ℕ × ℚ)) :
    List CommonKeywordAdv :=
  let words1 := pyDict keywords1
  let words2 := pyDict keywords2
  (dict_common words1 words2).map (fun p =>
    let c2 := (dictLookup words2 p.1).getD (0, 0)
    { keyword := p.1, your_count := p.2.1, competitor_count := c2.1,
      your_importance := pyRound4 p.2.2, competitor_importance := pyRound4 c2.2,
      total_count := p.2.1 + c2.1, total_importance := pyRound4 (p.2.2 + c2.2) })

/-- `AdvancedCompetitorAnalyzer._find_common_keywords_advanced`: sorted by
total importance descending, truncated to the top 30. -/
def find_common_keywords_advanced (keywords1 keywords2 : List (String × ℕ × ℚ)) :
    List CommonKeywordAdv :=
  ((common_keywords_advanced_full keywords1 keywords2).insertionSort
    (fun a b => b.total_importance ≤ a.total_importance)).take 30

/-- The advanced unique-keyword entries before sorting and truncation. -/
def unique_keywords_advanced_full (keywords1 keywords2 : List (String × ℕ × ℚ)) :
    List UniqueKeywordAdv :=
  (dict_unique (pyDict keywords1) (pyDict keywords2)).map (fun p =>
    { keyword := p.1, count := p.2.1, importance := pyRound4 p.2.2 })

/-- `AdvancedCompetitorAnalyzer._find_unique_keywords_advanced`: sorted by
importance descending, truncated to the top 30. -/
def find_unique_keywords_advanced (keywords1 keywords2 : List (String × ℕ × ℚ)) :
    List UniqueKeywordAdv :=
  ((unique_keywords_advanced_full keywords1 keywords2).insertionSort
    (fun a b => b.importance ≤ a.importance)).take 30

/-!
## ComprehensiveSEOScorer (comprehensive_seo_scorer.py): page data model

Each analyzer result section is `Option (Except String α)`:
`none` models a missing key or an empty dict (both falsy, indistinguishable to
the scorer), `some (.error e)` models the orchestrator's `{'error': str(e)}`
marker (truthy, but every specific key is read with a `get` default), and
`some (.ok v)` models real analyzer output.
-/

/-- The `core_web_vitals` section (keys read with `get(k, '')`). -/
structure CoreWebVitals where
  lcp_score : String := ""
  cls_score : String := ""
  inp_score : String := ""
deriving Repr, DecidableEq

/-- The `render_blocking_resources` sub-dict. -/
structure BlockingResources where
  total_blocking_resources : ℕ := 0
deriving Repr, DecidableEq

/-- The `render_loading_analysis` section. -/
structure RenderLoading where
  render_blocking_resources : Option BlockingResources := none
deriving Repr, DecidableEq

/-- The `resource_summary` sub-dict. -/
structure ResourceSummary where
  total_page_size_mb : ℚ := 0
deriving Repr, DecidableEq

/-- The `advanced_performance` section. -/
structure AdvancedPerformance where
  resource_summary : Option ResourceSummary := none
deriving Repr, DecidableEq

/-- The `indexability_analysis` section
(`indexability_status` is read with default `'indexable'`). -/
structure Indexability where
  indexability_status : Option String := none
deriving Repr, DecidableEq

/-- The `https_enforcement` sub-dict. -/
structure HttpsEnforcement where
  is_https : Bool := false
deriving Repr, DecidableEq

/-- The `mixed_content` sub-dict. -/
structure MixedContent where
  has_mixed_content : Bool := false
  count : ℕ := 0
deriving Repr, DecidableEq

/-- The `security_headers` sub-dict. -/
structure SecurityHeaders where
  missing_count : ℕ := 0
deriving Repr, DecidableEq

/-- The `security_analysis` section. -/
structure SecurityAnalysis where
  https_enforcement : Option HttpsEnforcement := none
  mixed_content : Option MixedContent := none
  security_headers : Option SecurityHeaders := none
deriving Repr, DecidableEq

/-- One entry of `page_data['images']` (only `alt` is read, with default `''`). -/
structure ImageData where
  alt : String := ""
deriving Repr, DecidableEq

/-- Decidable equality of section values. -/
instance {ε α : Type} [DecidableEq ε] [DecidableEq α] : DecidableEq (Except ε α) := fun x y =>
  match x, y with
  | .ok a, .ok b =>
    if h : a = b then .isTrue (by rw [h]) else .isFalse (by intro hh; cases hh; exact h rfl)
  | .ok _, .error _ => .isFalse (by intro hh; cases hh)
  | .error _, .ok _ => .isFalse (by intro hh; cases hh)
  | .error e, .error f =>
    if h : e = f then .isTrue (by rw [h]) else .isFalse (by intro hh; cases hh; exact h rfl)

/-- The page data dictionary as read by the scorer.  Scalar keys read with a
`get` default are plain fields (a missing key is indistinguishable from the
default); `canonical_url` is a `String` because `None` and `''` are equally
falsy at its single use site; `similarity_scores` keeps only the dict values,
the only thing `max(...)` reads. -/
structure PageData where
  url : String := ""
  title : String := ""
  meta_description : String := ""
  h1_tags : List String := []
  h2_tags : List String := []
  images : List ImageData := []
  canonical_url : String := ""
  word_count : ℕ := 0
  is_exact_duplicate : Bool := false
  similarity_scores : List ℚ := []
  broken_links : List String := []
  status_code : ℕ := 200
  core_web_vitals : Option (Except String CoreWebVitals) := none
  render_loading_analysis : Option (Except String RenderLoading) := none
  advanced_performance : Option (Except String AdvancedPerformance) := none
  indexability_analysis : Option (Except String Indexability) := none
  security_analysis : Option (Except String SecurityAnalysis) := none
deriving Repr, DecidableEq

/-- Reading a section value: the `{'error': ...}` marker behaves like a dict in
which every section-specific key is missing, i.e. like the all-defaults record. -/
def orEmpty {α : Type} (d : α) : Except String α → α
  | .ok v => v
  | .error _ => d

/-- Python's `str.strip()`: drop leading and trailing whitespace (structural
model of `String.trim`, kept kernel-reducible). -/
def pyStrip (s : String) : String :=
  String.mk (((s.data.dropWhile Char.isWhitespace).reverse.dropWhile Char.isWhitespace).reverse)

/-- `max` of a nonempty list of rationals (`max(xs)` in Python);
0 for the empty list (that call site is guarded). -/
def listMax : List ℚ → ℚ
  | [] => 0
  | x :: xs => xs.foldl max x

/-- Python's `max(a, b)` on rationals, kept as an executable conditional so
concrete scores evaluate by kernel reduction (value-equal to `max`). -/
def pyMax (a b : ℚ) : ℚ := if b ≤ a then a else b

/-- `a ≤ pyMax a b`. -/
lemma le_pyMax_left (a b : ℚ) : a ≤ pyMax a b := by
  unfold pyMax
  split_ifs <;> linarith

/-- `pyMax` is bounded by any common upper bound. -/
lemma pyMax_le {a b c : ℚ} (h1 : a ≤ c) (h2 : b ≤ c) : pyMax a b ≤ c := by
  unfold pyMax
  split_ifs <;> assumption

/-- The `# Check Core Web Vitals` block of `_score_performance` (the three
sequential LCP/CLS/INP deductions, run when the `cwv` dict is truthy). -/
def perf_cwv_stage (cwv : CoreWebVitals) (score : ℚ) : ℚ :=
  let score :=
    if cwv.lcp_score = "poor" then score - 15
    else if cwv.lcp_score = "needs-improvement" then score - 8
    else score
  let score :=
    if cwv.cls_score = "poor" then score - 15
    else if cwv.cls_score = "needs-improvement" then score - 8
    else score
  if cwv.inp_score = "poor" then score - 10
  else if cwv.inp_score = "needs-improvement" then score - 5
  else score

/-- The `# Check render-blocking resources` block of `_score_performance`. -/
def perf_render_stage (blocking_count : ℕ) (score : ℚ) : ℚ :=
  if blocking_count > 5 then score - 10
  else if blocking_count > 2 then score - 5
  else score

/-- The `# Check page size` block of `_score_performance`. -/
def perf_size_stage (total_mb : ℚ) (score : ℚ) : ℚ :=
  if total_mb > 5 then score - 10
  else if total_mb > 3 then score - 5
  else score

/-- `ComprehensiveSEOScorer._score_performance` (score starts at 100.0, ordered
deductions, floored at 0). -/
def score_performance (page_data : PageData) : ℚ :=
  let score : ℚ := 100
  let score :=
    match page_data.core_web_vitals with
    | none => score
    | some sec => perf_cwv_stage (orEmpty {} sec) score
  let score :=
    match page_data.render_loading_analysis with
    | none => score
    | some sec =>
      perf_render_stage
        ((orEmpty {} sec).render_blocking_resources.getD {}).total_blocking_resources score
  let score :=
    match page_data.advanced_performance with
    | none => score
    | some sec =>
      perf_size_stage ((orEmpty {} sec).resource_summary.getD {}).total_page_size_mb score
  pyMax 0 score

/-- The `# Title` block of `_score_seo`. -/
def seo_title_stage (title : String) (score : ℚ) : ℚ :=
  if title = "" then score - 15
  else
    let title_len := title.length
    if title_len < 30 then score - 5
    else if title_len > 60 then score - 5
    else score

/-- The `# Meta description` block of `_score_seo`. -/
def seo_meta_stage (meta_desc : String) (score : ℚ) : ℚ :=
  if meta_desc = "" then score - 10
  else
    let desc_len := meta_desc.length
    if desc_len < 120 then score - 5
    else if desc_len > 160 then score - 5
    else score

/-- The `# H1 tags` block of `_score_seo`. -/
def seo_h1_stage (h1_tags : List String) (score : ℚ) : ℚ :=
  if h1_tags.length = 0 then score - 10
  else if h1_tags.length > 1 then score - 5
  else score

/-- The `# Images without alt` block of `_score_seo`. -/
def seo_alt_stage (images : List ImageData) (score : ℚ) : ℚ :=
  let images_without_alt := images.filter (fun img => pyStrip img.alt == "")
  if images_without_alt.length ≠ 0 then
    let missing_alt_pct : ℚ :=
      if images.length ≠ 0 then
        ((images_without_alt.length : ℚ) / (images.length : ℚ)) * 100
      else 0
    if missing_alt_pct > 50 then score - 10
    else if missing_alt_pct > 25 then score - 5
    else score
  else score

/-- The `# Canonical` block of `_score_seo`. -/
def seo_canonical_stage (canonical_url : String) (score : ℚ) : ℚ :=
  if canonical_url = "" then score - 5 else score

/-- The `# Indexability` inner deduction of `_score_seo`. -/
def seo_index_stage (status : String) (score : ℚ) : ℚ :=
  if status ≠ "indexable" then score - 20 else score

/-- `ComprehensiveSEOScorer._score_seo`. -/
def score_seo (page_data : PageData) : ℚ :=
  let score : ℚ := 100
  let score := seo_title_stage page_data.title score
  let score := seo_meta_stage page_data.meta_description score
  let score := seo_h1_stage page_data.h1_tags score
  let score := seo_alt_stage page_data.images score
  let score := seo_canonical_stage page_data.canonical_url score
  let score :=
    match page_data.indexability_analysis with
    | none => score
    | some sec =>
      seo_index_stage (((orEmpty {} sec).indexability_status).getD "indexable") score
  pyMax 0 score

/-- The `# Word count` block of `_score_content`. -/
def content_word_stage (word_count : ℕ) (score : ℚ) : ℚ :=
  if word_count < 300 then score - 20
  else if word_count < 500 then score - 10
  else score

/-- The `# Duplicate content` block of `_score_content`. -/
def content_dup_stage (is_exact_duplicate : Bool) (similarity_scores : List ℚ) (score : ℚ) : ℚ :=
  if is_exact_duplicate then score - 30
  else if similarity_scores ≠ [] then
    let max_similarity := listMax similarity_scores
    if max_similarity ≥ 90 then score - 25
    else if max_similarity ≥ 70 then score - 15
    else score
  else score

/-- The `# Heading structure` block of `_score_content`. -/
def content_heading_stage (h1_count h2_count word_count : ℕ) (score : ℚ) : ℚ :=
  let score := if h1_count = 0 then score - 10 else score
  if h2_count = 0 ∧ word_count > 500 then score - 5 else score

/-- `ComprehensiveSEOScorer._score_content`. -/
def score_content (page_data : PageData) : ℚ :=
  let score : ℚ := 100
  let word_count := page_data.word_count
  let score := content_word_stage word_count score
  let score :=
    content_dup_stage page_data.is_exact_duplicate page_data.similarity_scores score
  let score :=
    content_heading_stage page_data.h1_tags.length page_data.h2_tags.length word_count score
  pyMax 0 score

/-- The `# HTTPS` / mixed-content / security-headers block of
`_score_technical` (run when the `security` dict is truthy). -/
def technical_security_stage (security : SecurityAnalysis) (score : ℚ) : ℚ :=
  let score :=
    if !(security.https_enforcement.getD {}).is_https then score - 20 else score
  let mixed_content := security.mixed_content.getD {}
  let score :=
    if mixed_content.has_mixed_content then
      score - ((min 20 (mixed_content.count * 2) : ℕ) : ℚ)
    else score
  if (security.security_headers.getD {}).missing_count > 3 then score - 10 else score

/-- The `# Broken links` block of `_score_technical`. -/
def technical_broken_stage (broken_links : List String) (score : ℚ) : ℚ :=
  if broken_links ≠ [] then
    score - ((min 15 (broken_links.length * 3) : ℕ) : ℚ)
  else score

/-- The `# Status code` block of `_score_technical`. -/
def technical_status_stage (status_code : ℕ) (score : ℚ) : ℚ :=
  if status_code ≥ 400 then score - 30
  else if status_code ≥ 300 then score - 5
  else score

/-- `ComprehensiveSEOScorer._score_technical`. -/
def score_technical (page_data : PageData) : ℚ :=
  let score : ℚ := 100
  let score :=
    match page_data.security_analysis with
    | none => score
    | some sec => technical_security_stage (orEmpty {} sec) score
  let score := technical_broken_stage page_data.broken_links score
  let score := technical_status_stage page_data.status_code score
  pyMax 0 score

/-- The four category scores (the `scores` dict of `calculate_page_score`;
all four keys are always present). -/
structure CategoryScores where
  performance : ℚ
  seo : ℚ
  content : ℚ
  technical : ℚ
deriving Repr, DecidableEq

/-- The fixed `weights` dict of `_calculate_overall_score` (Python 3.7+ dict
iteration order is insertion order). -/
def weights : List (String × ℚ) :=
  [("performance", 25 / 100), ("seo", 30 / 100), ("content", 25 / 100), ("technical", 20 / 100)]

/-- `category_scores.get(category, 0)` on the four-key scores dict. -/
def categoryGet (s : CategoryScores) (c : String) : ℚ :=
  if c = "performance" then s.performance
  else if c = "seo" then s.seo
  else if c = "content" then s.content
  else if c = "technical" then s.technical
  else 0

/-- `ComprehensiveSEOScorer._calculate_overall_score`: accumulates
`score * weight` and the weight total over the weights dict, then divides. -/
def calculate_overall_score (category_scores : CategoryScores) : ℚ :=
  let total_weighted := (weights.map (fun p => categoryGet category_scores p.1 * p.2)).sum
  let total_weight := (weights.map (fun p => p.2)).sum
  if total_weight > 0 then total_weighted / total_weight else 0

/-- Python `f'{q:.1f}'` for the nonnegative rationals the scorer formats
(category scores, always ≥ 0 after clamping). -/
def fmt1 (q : ℚ) : String :=
  let r := roundHalfEven (q * 10)
  toString (r / 10) ++ "." ++ toString (r % 10)

/-- An issue dict as produced by `_collect_page_issues`; `page_url` is `none`
until the site-level aggregation adds the key. -/
structure Issue where
  category : String
  severity : String
  issue : String
  recommendation : String
  page_url : Option String := none
deriving Repr, DecidableEq

/-- `ComprehensiveSEOScorer._collect_page_issues` (reads only `scores`;
`page_data` is an unused parameter of the Python method too). -/
def collect_page_issues (_page_data : PageData) (scores : CategoryScores) : List Issue :=
  let issues : List Issue := []
  let issues :=
    if scores.performance < 70 then
      issues ++
        [{ category := "performance",
           severity := if scores.performance < 50 then "warning" else "info",
           issue := "Performance score is " ++ fmt1 scores.performance ++ "/100",
           recommendation := "Improve Core Web Vitals and reduce render-blocking resources" }]
    else issues
  let issues :=
    if scores.seo < 70 then
      issues ++
        [{ category := "seo",
           severity := if scores.seo < 50 then "warning" else "info",
           issue := "SEO score is " ++ fmt1 scores.seo ++ "/100",
           recommendation := "Fix on-page SEO elements (title, meta, headings, images)" }]
    else issues
  let issues :=
    if scores.content < 70 then
      issues ++
        [{ category := "content",
           severity := if scores.content < 50 then "warning" else "info",
           issue := "Content score is " ++ fmt1 scores.content ++ "/100",
           recommendation := "Improve content quality and reduce duplication" }]
    else issues
  let issues :=
    if scores.technical < 70 then
      issues ++
        [{ category := "technical",
           severity := if scores.technical < 50 then "warning" else "info",
           issue := "Technical score is " ++ fmt1 scores.technical ++ "/100",
           recommendation := "Fix technical issues (HTTPS, security headers, broken links)" }]
    else issues
  issues

/-- One increment of a Python `defaultdict(int)` counter keyed by strings. -/
def counterAdd (acc : List (String × ℕ)) (k : String) : List (String × ℕ) :=
  if acc.any (fun q => q.1 == k) then
    acc.map (fun q => if q.1 == k then (q.1, q.2 + 1) else q)
  else acc ++ [(k, 1)]

/-- `ComprehensiveSEOScorer._count_issues_by_severity`. -/
def count_issues_by_severity (issues : List Issue) : List (String × ℕ) :=
  issues.foldl (fun counts issue => counterAdd counts issue.severity) []

/-- One increment of the nested `defaultdict(lambda: defaultdict(int))`. -/
def nestedCounterAdd (acc : List (String × List (String × ℕ))) (cat sev : String) :
    List (String × List (String × ℕ)) :=
  if acc.any (fun q => q.1 == cat) then
    acc.map (fun q => if q.1 == cat then (q.1, counterAdd q.2 sev) else q)
  else acc ++ [(cat, counterAdd [] sev)]

/-- `ComprehensiveSEOScorer._count_issues_by_type_and_severity`. -/
def count_issues_by_type_and_severity (issues : List Issue) :
    List (String × List (String × ℕ)) :=
  issues.foldl (fun counts issue => nestedCounterAdd counts issue.category issue.severity) []

/-- Distinct values of a string list in first-occurrence order (the key order
in which `defaultdict` grouping iterates). -/
def firstOccur (l : List String) : List String :=
  l.foldl (fun acc k => if acc.any (fun q => q == k) then acc else acc ++ [k]) []

/-- `ComprehensiveSEOScorer._generate_recommendations`. -/
def generate_recommendations (issues : List Issue) : List String :=
  let cats := firstOccur (issues.map (fun i => i.category))
  let recommendations := cats.foldl (fun recs category =>
    let cat_issues := issues.filter (fun i => i.category == category)
    let critical := cat_issues.filter (fun i => i.severity == "critical")
    if critical.length ≠ 0 then
      recs ++ ["Fix " ++ toString critical.length ++ " critical " ++ category ++ " issues"]
    else
      let warns := cat_issues.filter (fun i => i.severity == "warning")
      if warns.length ≠ 0 then
        recs ++ ["Address " ++ toString warns.length ++ " " ++ category ++ " warnings"]
      else recs) []
  recommendations.take 10

/-- The dict returned by `ComprehensiveSEOScorer.calculate_page_score`. -/
structure PageScore where
  overall_score : ℚ
  category_scores : CategoryScores
  issues : List Issue
  issue_counts : List (String × ℕ)
  recommendations : List String
deriving Repr, DecidableEq

/-- `ComprehensiveSEOScorer.calculate_page_score`. -/
def calculate_page_score (page_data : PageData) : PageScore :=
  let scores : CategoryScores :=
    { performance := score_performance page_data,
      seo := score_seo page_data,
      content := score_content page_data,
      technical := score_technical page_data }
  let overall_score := calculate_overall_score scores
  let issues := collect_page_issues page_data scores
  { overall_score := overall_score,
    category_scores := scores,
    issues := issues,
    issue_counts := count_issues_by_severity issues,
    recommendations := generate_recommendations issues }

/-- The `severity_order` ranking dict of `_get_top_issues`
(`.get(severity, 99)`). -/
def severity_order (s : String) : ℕ :=
  if s = "critical" then 0
  else if s = "warning" then 1
  else if s = "info" then 2
  else if s = "opportunity" then 3
  else 99

/-- The sort key of `_get_top_issues`: `(severity rank, category)`,
compared lexicographically as Python compares tuples. -/
def issueLe (a b : Issue) : Prop :=
  severity_order a.severity < severity_order b.severity ∨
    (severity_order a.severity = severity_order b.severity ∧ a.category ≤ b.category)

instance : DecidableRel issueLe := fun a b => by
  unfold issueLe; infer_instance

/-- `ComprehensiveSEOScorer._get_top_issues`: a stable sort by
`(severity rank, category)` (Python's `sorted` is stable, as is
`insertionSort`), truncated to `limit` entries. -/
def get_top_issues (issues : List Issue) (limit : ℕ) : List Issue :=
  (issues.insertionSort issueLe).take limit

/-- One entry of the `page_scores` list of `calculate_site_score`. -/
structure PageUrlScore where
  url : String
  score : ℚ
  category_scores : CategoryScores
deriving Repr, DecidableEq

/-- The dict returned by `ComprehensiveSEOScorer.calculate_site_score`.
For an empty page list the Python dict carries only the first four keys; that
branch is modelled with `category_scores := none` and empty lists. -/
structure SiteScore where
  overall_score : ℚ
  category_scores : Option CategoryScores
  total_pages : ℕ
  page_scores : List PageUrlScore
  site_wide_issues : List Issue
  issue_counts : List (String × List (String × ℕ))
  top_issues : List Issue
deriving Repr, DecidableEq

/-- The site-wide issue accumulation loop of `calculate_site_score`: every
page's issues, each copied and tagged with `page_url = page.get('url', '')`,
in page order. -/
def site_all_issues (pages : List PageData) : List Issue :=
  pages.flatMap (fun page =>
    ((calculate_page_score page).issues).map (fun issue =>
      { issue with page_url := some page.url }))

/-- `ComprehensiveSEOScorer.calculate_site_score`. -/
def calculate_site_score (pages : List PageData) : SiteScore :=
  if pages.length = 0 then
    { overall_score := 0, category_scores := none, total_pages := 0,
      page_scores := [], site_wide_issues := [], issue_counts := [], top_issues := [] }
  else
    let page_scores := pages.map (fun page =>
      ({ url := page.url,
         score := (calculate_page_score page).overall_score,
         category_scores := (calculate_page_score page).category_scores } : PageUrlScore))
    let num_pages := pages.length
    let category_scores : CategoryScores :=
      { performance := pyRound1
          ((pages.map (fun p => (calculate_page_score p).category_scores.performance)).sum
            / (num_pages : ℚ)),
        seo := pyRound1
          ((pages.map (fun p => (calculate_page_score p).category_scores.seo)).sum
            / (num_pages : ℚ)),
        content := pyRound1
          ((pages.map (fun p => (calculate_page_score p).category_scores.content)).sum
            / (num_pages : ℚ)),
        technical := pyRound1
          ((pages.map (fun p => (calculate_page_score p).category_scores.technical)).sum
            / (num_pages : ℚ)) }
    let overall_score := calculate_overall_score category_scores
    let all_issues := site_all_issues pages
    { overall_score := pyRound1 overall_score,
      category_scores := some category_scores,
      total_pages := num_pages,
      page_scores := page_scores,
      site_wide_issues := all_issues.take 100,
      issue_counts := count_issues_by_type_and_severity all_issues,
      top_issues := get_top_issues all_issues 20 }

/-!
## AdvancedSEOAuditOrchestrator (advanced_seo_audit_orchestrator.py)
-/

/-- The orchestrator's feature flags (defaults as in `__init__`). -/
structure FeatureFlags where
  core_web_vitals : Bool := true
  advanced_performance : Bool := true
  render_loading : Bool := true
  indexability : Bool := true
  security : Bool := true
  comprehensive_scoring : Bool := true
  use_playwright_for_cwv : Bool := false
deriving Repr, DecidableEq

/-- The outcome each analyzer call would produce if invoked: `.ok v` models a
normal return, `.error e` models a raised exception whose `str(e)` is `e`
(the orchestrator's `except Exception as e` branch). -/
structure AnalyzerRuns where
  cwv : Except String CoreWebVitals
  advanced_performance : Except String AdvancedPerformance
  render_loading : Except String RenderLoading
  indexability : Except String Indexability
  security : Except String SecurityAnalysis
deriving Repr, DecidableEq

/-- `AdvancedSEOAuditOrchestrator.analyze_page` with all analyzer instances
available.  Each enabled analyzer's section of `analysis_results` is written
into `page_data`: the `try` body stores the result, the `except` branch stores
the `{'error': str(e)}` marker — both cases are `some outcome`.  The final
comprehensive-scoring step calls `calculate_page_score` (a total function, so
its `except` branch is dead); its result, stored under
`page_data['comprehensive_seo_score']`, is returned as the second component.
The function is total: no exception escapes to the caller. -/
def analyze_page (flags : FeatureFlags) (runs : AnalyzerRuns) (page_data : PageData) :
    PageData × Option PageScore :=
  let page_data :=
    if flags.core_web_vitals && flags.use_playwright_for_cwv then
      { page_data with core_web_vitals := some runs.cwv }
    else page_data
  let page_data :=
    if flags.advanced_performance then
      { page_data with advanced_performance := some runs.advanced_performance }
    else page_data
  let page_data :=
    if flags.render_loading then
      { page_data with render_loading_analysis := some runs.render_loading }
    else page_data
  let page_data :=
    if flags.indexability then
      { page_data with indexability_analysis := some runs.indexability }
    else page_data
  let page_data :=
    if flags.security then
      { page_data with security_analysis := some runs.security }
    else page_data
  if flags.comprehensive_scoring then (page_data, some (calculate_page_score page_data))
  else (page_data, none)

/-!
## LinkAnalyzer._analyze_anchor_texts (link_analyzer.py)
-/

/-- The `generic_anchors` stoplist of `_analyze_anchor_texts`
(a Python set used only for membership tests). -/
def generic_anchors : List String :=
  ["click here", "read more", "learn more", "here", "this", "link",
   "more", "continue", "next", "previous", "view", "see", "go"]

/-- The `brand_indicators` list. -/
def brand_indicators : List String :=
  ["home", "homepage", "logo", "brand", "company"]

/-- Whether `sub` occurs as a contiguous run in the character list. -/
def infixAux (sub : List Char) : List Char → Bool
  | [] => List.isPrefixOf sub []
  | a :: rest => List.isPrefixOf sub (a :: rest) || infixAux sub rest

/-- Python's `sub in s` substring test. -/
def containsSubstr (s sub : String) : Bool :=
  infixAux sub.data s.data

/-- Python's `str.lower()` for the ASCII anchors under study (structural model
of `String.toLower`, kept kernel-reducible). -/
def pyLower (s : String) : String :=
  String.mk (s.data.map Char.toLower)

/-- Helper for `pySplit`: walk the characters, accumulating the current token
(reversed); whitespace flushes the token. -/
def pySplitGo : List Char → List Char → List String
  | [], acc => if acc = [] then [] else [String.mk acc.reverse]
  | c :: cs, acc =>
    if Char.isWhitespace c then
      (if acc = [] then [] else [String.mk acc.reverse]) ++ pySplitGo cs []
    else pySplitGo cs (c :: acc)

/-- Python's `s.split()`: split on whitespace runs, dropping empty pieces
(structural model, kept kernel-reducible). -/
def pySplit (s : String) : List String :=
  pySplitGo s.data []

/-- The classification of one anchor in `_analyze_anchor_texts`' loop
(ASCII lowercasing models `str.lower` for the anchors under study). -/
inductive AnchorClass where
  | empty
  | generic
  | branded
  | keyword_rich
deriving Repr, DecidableEq, BEq

/-- The if/elif cascade classifying `anchor_lower = anchor.lower().strip()`:
empty, exact stoplist match, brand-indicator substring, multi-word
(≥ 2 whitespace tokens), long single word (> 4 chars), else generic. -/
def classify_anchor (anchor : String) : AnchorClass :=
  let anchor_lower := pyStrip (pyLower anchor)
  if anchor_lower = "" ∨ anchor_lower = " " then .empty
  else if generic_anchors.contains anchor_lower then .generic
  else if brand_indicators.any (fun ind => containsSubstr anchor_lower ind) then .branded
  else if (pySplit anchor_lower).length ≥ 2 then .keyword_rich
  else if anchor_lower.length > 4 then .keyword_rich
  else .generic

/-- The dict returned by `_analyze_anchor_texts`.  The source key
`keyword_rich_ratio` is rendered as `keyword_rich_fraction`; it is `none` in
the empty-input early return, where the Python dict carries no such key. -/
structure AnchorAnalysis where
  total : ℕ
  unique : ℕ
  keyword_rich : ℕ
  branded : ℕ
  generic : ℕ
  empty : ℕ
  keyword_rich_fraction : Option ℚ
  top_anchors : List (String × ℕ)
deriving Repr, DecidableEq

/-- `LinkAnalyzer._analyze_anchor_texts`.  The counter increments of the loop
are `countP` over the classification; `top_anchors` is the `Counter` over the
lowered/stripped anchors, most common first (count-descending). -/
def analyze_anchor_texts (anchor_texts : List String) : AnchorAnalysis :=
  if anchor_texts.length = 0 then
    { total := 0, unique := 0, keyword_rich := 0, branded := 0, generic := 0,
      empty := 0, keyword_rich_fraction := none, top_anchors := [] }
  else
    let keyword_rich := anchor_texts.countP (fun a => classify_anchor a == .keyword_rich)
    let branded := anchor_texts.countP (fun a => classify_anchor a == .branded)
    let generic := anchor_texts.countP (fun a => classify_anchor a == .generic)
    let empty := anchor_texts.countP (fun a => classify_anchor a == .empty)
    let anchor_counter := anchor_texts.foldl (fun acc a => counterAdd acc (pyStrip (pyLower a))) []
    { total := anchor_texts.length,
      unique := (firstOccur anchor_texts).length,
      keyword_rich := keyword_rich, branded := branded, generic := generic, empty := empty,
      keyword_rich_fraction := some ((keyword_rich : ℚ) / (anchor_texts.length : ℚ)),
      top_anchors := ((anchor_counter.insertionSort (fun a b => b.2 ≤ a.2)).take 20) }

/-!
## Reference definitions written from the specification's words
(used only to compare spec statements against the code's behaviour)
-/

/-- The SEO deduction table exactly as the specification states it: missing
title −15, title length outside [30,60] −5, missing meta description −10,
description length outside [120,160] −5, missing or duplicate H1 −10, more
than 50% of images missing alt −10, missing canonical −5, non-indexable −20;
score clamped at 0.  This definition follows the SPEC's words, not the code. -/
def spec_score_seo (page_data : PageData) : ℚ :=
  let d_title : ℚ :=
    if page_data.title = "" then 15
    else if page_data.title.length < 30 ∨ page_data.title.length > 60 then 5
    else 0
  let d_meta : ℚ :=
    if page_data.meta_description = "" then 10
    else if page_data.meta_description.length < 120 ∨ page_data.meta_description.length > 160
      then 5
    else 0
  let d_h1 : ℚ :=
    if page_data.h1_tags.length = 0 ∨ page_data.h1_tags.length > 1 then 10 else 0
  let missing_alt := (page_data.images.filter (fun img => pyStrip img.alt == "")).length
  let d_alt : ℚ :=
    if page_data.images.length ≠ 0 ∧
        ((missing_alt : ℚ) / (page_data.images.length : ℚ)) * 100 > 50 then 10
    else 0
  let d_canonical : ℚ := if page_data.canonical_url = "" then 5 else 0
  let status :=
    match page_data.indexability_analysis with
    | none => "indexable"
    | some sec => ((orEmpty {} sec).indexability_status).getD "indexable"
  let d_index : ℚ := if status ≠ "indexable" then 20 else 0
  pyMax 0 (100 - (d_title + d_meta + d_h1 + d_alt + d_canonical + d_index))

/-- The anchor stoplist exactly as the specification states it (five entries).
This definition follows the SPEC's words, not the code. -/
def spec_stoplist : List String :=
  ["click here", "read more", "here", "link", "more"]

/-- "generic" as the specification defines it: after trimming and lowercasing,
an exact match of the five-entry stoplist.  From the SPEC's words. -/
def spec_is_generic (anchor : String) : Bool :=
  spec_stoplist.contains (pyStrip (pyLower anchor))

/-- "keyword-rich" as the specification defines it: at least two
whitespace-separated tokens and not generic.  From the SPEC's words. -/
def spec_is_keyword_rich (anchor : String) : Bool :=
  ((pySplit (pyStrip (pyLower anchor))).length ≥ 2 : Bool) && !(spec_is_generic anchor)

/-!
## Concrete pages used to evaluate the scorer on explicit inputs
-/

/-- A 45-character title (in the valid [30,60] range). -/
def title45 : String := String.mk (List.replicate 45 'a')

/-- A 130-character meta description (in the valid [120,160] range). -/
def meta130 : String := String.mk (List.replicate 130 'm')

/-- A 200-character title (over the 60-character bound). -/
def title200 : String := String.mk (List.replicate 200 'a')

/-- A page whose only SEO defect is a duplicate (second) H1 tag. -/
def pageDuplicateH1 : PageData :=
  { title := title45, meta_description := meta130, h1_tags := ["One", "Two"],
    canonical_url := "https://example.com/a", word_count := 600 }

/-- A page whose only SEO defect is 3 of 10 images (30%) missing alt text. -/
def pageAlt30 : PageData :=
  { title := title45, meta_description := meta130, h1_tags := ["One"],
    images :=
      [{ alt := "x" }, { alt := "x" }, { alt := "x" }, { alt := "x" }, { alt := "x" },
       { alt := "x" }, { alt := "x" }, { alt := "" }, { alt := "" }, { alt := "" }],
    canonical_url := "https://example.com/b", word_count := 600 }

/-- A page scoring 50 on content (word count 250 and exact duplicate) and at
least 70 everywhere else: its only issue is a content `info` issue. -/
def pageContentInfo : PageData :=
  { url := "https://example.com/info", title := title45, meta_description := meta130,
    h1_tags := ["One"], canonical_url := "https://example.com/info",
    word_count := 250, is_exact_duplicate := true }

/-- A page scoring 40 on content (no words, exact duplicate, no H1) and at
least 70 everywhere else: its only issue is a content `warning` issue. -/
def pageContentWarning : PageData :=
  { url := "https://example.com/warn", title := title45, meta_description := meta130,
    h1_tags := [], canonical_url := "https://example.com/warn",
    word_count := 0, is_exact_duplicate := true }

/-!
## Theorems
-/

/-- Each of the three metric winners produced by `_compare_results` is either
the subject or the reference side; the strings come from two-way conditionals. -/
lemma compare_results_winner_binary (r1 r2 : UrlResult) :
    ((compare_results r1 r2).load_speed.winner = "your_site" ∨
      (compare_results r1 r2).load_speed.winner = "competitor") ∧
    ((compare_results r1 r2).errors.winner = "your_site" ∨
      (compare_results r1 r2).errors.winner = "competitor") ∧
    ((compare_results r1 r2).seo_score.winner = "your_site" ∨
      (compare_results r1 r2).seo_score.winner = "competitor") := by
  unfold compare_results
  refine ⟨?_, ?_, ?_⟩ <;> dsimp only <;> split_ifs <;> simp

/-- If every metric winner is binary, `_determine_winner` leaves the tie
counter at 0, distributes exactly 3 wins over the two sides, and its overall
verdict is never the (unreachable) tie branch. -/
lemma determine_winner_of_binary (c : Comparison)
    (h1 : c.load_speed.winner = "your_site" ∨ c.load_speed.winner = "competitor")
    (h2 : c.errors.winner = "your_site" ∨ c.errors.winner = "competitor")
    (h3 : c.seo_score.winner = "your_site" ∨ c.seo_score.winner = "competitor") :
    (determine_winner c).wins.tie = 0 ∧
    (determine_winner c).wins.your_site + (determine_winner c).wins.competitor = 3 ∧
    (determine_winner c).overall ≠ "tie" := by
  unfold determine_winner
  rcases h1 with h1 | h1 <;> rcases h2 with h2 | h2 <;> rcases h3 with h3 | h3 <;>
    simp [h1, h2, h3]

/-- C10: the basic competitor analyzer's verdict is never a tie: each tallied
metric names `your_site` or `competitor`, the tie counter stays 0, three wins
are split over the two sides, and the overall verdict is never `tie`. -/
theorem basic_winner_never_tie (r1 r2 : UrlResult) :
    ((compare_results r1 r2).load_speed.winner = "your_site" ∨
      (compare_results r1 r2).load_speed.winner = "competitor") ∧
    ((compare_results r1 r2).errors.winner = "your_site" ∨
      (compare_results r1 r2).errors.winner = "competitor") ∧
    ((compare_results r1 r2).seo_score.winner = "your_site" ∨
      (compare_results r1 r2).seo_score.winner = "competitor") ∧
    (determine_winner (compare_results r1 r2)).wins.tie = 0 ∧
    (determine_winner (compare_results r1 r2)).wins.your_site +
      (determine_winner (compare_results r1 r2)).wins.competitor = 3 ∧
    (determine_winner (compare_results r1 r2)).overall ≠ "tie" := by
  obtain ⟨h1, h2, h3⟩ := compare_results_winner_binary r1 r2
  obtain ⟨t1, t2, t3⟩ := determine_winner_of_binary (compare_results r1 r2) h1 h2 h3
  exact ⟨h1, h2, h3, t1, t2, t3⟩

/-- C1 counterexample: comparing a result with itself (all three metric values
equal), the comparator names `competitor` on every metric — not `tie` — and
the advantage tally credits all three metrics to the competitor. -/
theorem equal_metrics_not_tie_cex :
    (compare_results { load_time := some 2, error_count := 1, seo_score := 50 }
        { load_time := some 2, error_count := 1, seo_score := 50 }).load_speed.winner =
      "competitor" ∧
    (compare_results { load_time := some 2, error_count := 1, seo_score := 50 }
        { load_time := some 2, error_count := 1, seo_score := 50 }).errors.winner =
      "competitor" ∧
    (compare_results { load_time := some 2, error_count := 1, seo_score := 50 }
        { load_time := some 2, error_count := 1, seo_score := 50 }).seo_score.winner =
      "competitor" ∧
    (determine_winner (compare_results
        { load_time := some 2, error_count := 1, seo_score := 50 }
        { load_time := some 2, error_count := 1, seo_score := 50 })).wins.competitor = 3 ∧
    (determine_winner (compare_results
        { load_time := some 2, error_count := 1, seo_score := 50 }
        { load_time := some 2, error_count := 1, seo_score := 50 })).wins.tie = 0 := by
  decide

/-- C1 (amended): on equal metric values the comparator reports
`winner = competitor` (the else-branch of the strict comparison), the
advantage tally therefore credits the competitor for that metric, and the tie
counter is never incremented. -/
theorem equal_metrics_favor_competitor (r1 r2 : UrlResult) :
    (r1.load_time.getD 999 = r2.load_time.getD 999 →
      (compare_results r1 r2).load_speed.winner = "competitor") ∧
    (r1.error_count = r2.error_count →
      (compare_results r1 r2).errors.winner = "competitor") ∧
    (r1.seo_score = r2.seo_score →
      (compare_results r1 r2).seo_score.winner = "competitor") ∧
    (determine_winner (compare_results r1 r2)).wins.tie = 0 := by
  refine ⟨?_, ?_, ?_, ?_⟩
  · intro h
    unfold compare_results
    dsimp only
    rw [if_neg]
    rw [h]
    exact lt_irrefl _
  · intro h
    unfold compare_results
    dsimp only
    rw [if_neg]
    rw [h]
    exact lt_irrefl _
  · intro h
    unfold compare_results
    dsimp only
    rw [if_neg]
    rw [h]
    exact lt_irrefl _
  · obtain ⟨h1, h2, h3⟩ := compare_results_winner_binary r1 r2
    exact (determine_winner_of_binary (compare_results r1 r2) h1 h2 h3).1

/-- C1 witness: the amended statement applied to a concrete pair of equal
results. -/
theorem equal_metrics_favor_competitor_witness :
    (compare_results ({ load_time := some 3 } : UrlResult)
        ({ load_time := some 3 } : UrlResult)).load_speed.winner = "competitor" ∧
    (compare_results ({ load_time := some 3 } : UrlResult)
        ({ load_time := some 3 } : UrlResult)).errors.winner = "competitor" ∧
    (compare_results ({ load_time := some 3 } : UrlResult)
        ({ load_time := some 3 } : UrlResult)).seo_score.winner = "competitor" ∧
    (determine_winner (compare_results ({ load_time := some 3 } : UrlResult)
        ({ load_time := some 3 } : UrlResult))).wins.tie = 0 := by
  have h := equal_metrics_favor_competitor ({ load_time := some 3 } : UrlResult)
    ({ load_time := some 3 } : UrlResult)
  exact ⟨h.1 rfl, h.2.1 rfl, h.2.2.1 rfl, h.2.2.2⟩

/-- Evaluating the weights dict lookup at the first key. -/
lemma categoryGet_performance (s : CategoryScores) :
    categoryGet s "performance" = s.performance := rfl

/-- Evaluating the weights dict lookup at the second key. -/
lemma categoryGet_seo (s : CategoryScores) : categoryGet s "seo" = s.seo := by
  unfold categoryGet
  rw [if_neg (by decide), if_pos rfl]

/-- Evaluating the weights dict lookup at the third key. -/
lemma categoryGet_content (s : CategoryScores) : categoryGet s "content" = s.content := by
  unfold categoryGet
  rw [if_neg (by decide), if_neg (by decide), if_pos rfl]

/-- Evaluating the weights dict lookup at the fourth key. -/
lemma categoryGet_technical (s : CategoryScores) : categoryGet s "technical" = s.technical := by
  unfold categoryGet
  rw [if_neg (by decide), if_neg (by decide), if_neg (by decide), if_pos rfl]

/-- C3: the overall page score is exactly the weighted sum of the four
category scores with weights 0.25 / 0.30 / 0.25 / 0.20, and the weights sum
to 1. -/
theorem overall_score_weighted_sum (s : CategoryScores) :
    calculate_overall_score s =
      s.performance * (25 / 100) + s.seo * (30 / 100) +
        s.content * (25 / 100) + s.technical * (20 / 100) ∧
    (weights.map (fun p => p.2)).sum = 1 := by
  constructor
  · unfold calculate_overall_score
    simp only [weights, List.map_cons, List.map_nil, List.sum_cons, List.sum_nil,
      categoryGet_performance, categoryGet_seo, categoryGet_content, categoryGet_technical]
    norm_num
    ring
  · unfold weights
    norm_num

/-- Stage bound: the CWV block only subtracts. -/
lemma perf_cwv_stage_le (cwv : CoreWebVitals) {x b : ℚ} (h : x ≤ b) :
    perf_cwv_stage cwv x ≤ b := by
  unfold perf_cwv_stage
  try dsimp only
  split_ifs <;> linarith

/-- Stage bound: the render-blocking block only subtracts. -/
lemma perf_render_stage_le (n : ℕ) {x b : ℚ} (h : x ≤ b) : perf_render_stage n x ≤ b := by
  unfold perf_render_stage
  try dsimp only
  split_ifs <;> linarith

/-- Stage bound: the page-size block only subtracts. -/
lemma perf_size_stage_le (m : ℚ) {x b : ℚ} (h : x ≤ b) : perf_size_stage m x ≤ b := by
  unfold perf_size_stage
  try dsimp only
  split_ifs <;> linarith

/-- Stage bound: the title block only subtracts. -/
lemma seo_title_stage_le (t : String) {x b : ℚ} (h : x ≤ b) : seo_title_stage t x ≤ b := by
  unfold seo_title_stage
  try dsimp only
  split_ifs <;> linarith

/-- Stage bound: the meta-description block only subtracts. -/
lemma seo_meta_stage_le (t : String) {x b : ℚ} (h : x ≤ b) : seo_meta_stage t x ≤ b := by
  unfold seo_meta_stage
  try dsimp only
  split_ifs <;> linarith

/-- Stage bound: the H1 block only subtracts. -/
lemma seo_h1_stage_le (l : List String) {x b : ℚ} (h : x ≤ b) : seo_h1_stage l x ≤ b := by
  unfold seo_h1_stage
  try dsimp only
  split_ifs <;> linarith

/-- Stage bound: the image-alt block only subtracts. -/
lemma seo_alt_stage_le (l : List ImageData) {x b : ℚ} (h : x ≤ b) : seo_alt_stage l x ≤ b := by
  unfold seo_alt_stage
  try dsimp only
  split_ifs <;> linarith

/-- Stage bound: the canonical block only subtracts. -/
lemma seo_canonical_stage_le (c : String) {x b : ℚ} (h : x ≤ b) :
    seo_canonical_stage c x ≤ b := by
  unfold seo_canonical_stage
  try dsimp only
  split_ifs <;> linarith

/-- Stage bound: the indexability block only subtracts. -/
lemma seo_index_stage_le (s : String) {x b : ℚ} (h : x ≤ b) : seo_index_stage s x ≤ b := by
  unfold seo_index_stage
  try dsimp only
  split_ifs <;> linarith

/-- Stage bound: the word-count block only subtracts. -/
lemma content_word_stage_le (n : ℕ) {x b : ℚ} (h : x ≤ b) : content_word_stage n x ≤ b := by
  unfold content_word_stage
  try dsimp only
  split_ifs <;> linarith

/-- Stage bound: the duplicate-content block only subtracts. -/
lemma content_dup_stage_le (d : Bool) (l : List ℚ) {x b : ℚ} (h : x ≤ b) :
    content_dup_stage d l x ≤ b := by
  unfold content_dup_stage
  try dsimp only
  split_ifs <;> linarith

/-- Stage bound: the heading-structure block only subtracts. -/
lemma content_heading_stage_le (n1 n2 n3 : ℕ) {x b : ℚ} (h : x ≤ b) :
    content_heading_stage n1 n2 n3 x ≤ b := by
  unfold content_heading_stage
  try dsimp only
  split_ifs <;> linarith

/-- Stage bound: the security block only subtracts (its two variable
deductions are `min`s of naturals, hence nonnegative). -/
lemma technical_security_stage_le (sec : SecurityAnalysis) {x b : ℚ} (h : x ≤ b) :
    technical_security_stage sec x ≤ b := by
  unfold technical_security_stage
  try dsimp only
  have hm : (0 : ℚ) ≤ ((min 20 ((sec.mixed_content.getD {}).count * 2) : ℕ) : ℚ) :=
    Nat.cast_nonneg _
  split_ifs <;> linarith

/-- Stage bound: the broken-links block only subtracts. -/
lemma technical_broken_stage_le (l : List String) {x b : ℚ} (h : x ≤ b) :
    technical_broken_stage l x ≤ b := by
  unfold technical_broken_stage
  try dsimp only
  have hb : (0 : ℚ) ≤ ((min 15 (l.length * 3) : ℕ) : ℚ) := Nat.cast_nonneg _
  split_ifs <;> linarith

/-- Stage bound: the status-code block only subtracts. -/
lemma technical_status_stage_le (n : ℕ) {x b : ℚ} (h : x ≤ b) :
    technical_status_stage n x ≤ b := by
  unfold technical_status_stage
  try dsimp only
  split_ifs <;> linarith

/-- Performance deductions never push the score above its 100 start. -/
lemma score_performance_le_100 (pd : PageData) : score_performance pd ≤ 100 := by
  unfold score_performance
  apply pyMax_le (by norm_num)
  cases pd.core_web_vitals <;> cases pd.render_loading_analysis <;>
    cases pd.advanced_performance <;> dsimp only <;>
    (repeat (first
      | exact le_refl _
      | apply perf_cwv_stage_le
      | apply perf_render_stage_le
      | apply perf_size_stage_le))

/-- SEO deductions never push the score above its 100 start. -/
lemma score_seo_le_100 (pd : PageData) : score_seo pd ≤ 100 := by
  unfold score_seo
  apply pyMax_le (by norm_num)
  cases pd.indexability_analysis <;> dsimp only <;>
    (repeat (first
      | exact le_refl _
      | apply seo_title_stage_le
      | apply seo_meta_stage_le
      | apply seo_h1_stage_le
      | apply seo_alt_stage_le
      | apply seo_canonical_stage_le
      | apply seo_index_stage_le))

/-- Content deductions never push the score above its 100 start. -/
lemma score_content_le_100 (pd : PageData) : score_content pd ≤ 100 := by
  unfold score_content
  apply pyMax_le (by norm_num)
  dsimp only
  repeat (first
    | exact le_refl _
    | apply content_word_stage_le
    | apply content_dup_stage_le
    | apply content_heading_stage_le)

/-- Technical deductions never push the score above its 100 start. -/
lemma score_technical_le_100 (pd : PageData) : score_technical pd ≤ 100 := by
  unfold score_technical
  apply pyMax_le (by norm_num)
  cases pd.security_analysis <;> dsimp only <;>
    (repeat (first
      | exact le_refl _
      | apply technical_security_stage_le
      | apply technical_broken_stage_le
      | apply technical_status_stage_le))

/-- C4: every category scorer stays within [0, 100] on every input: the final
`max(0, ...)` floors at 0, and the deduction-only structure keeps it at or
below the 100 starting value. -/
theorem category_scores_bounded (pd : PageData) :
    (0 ≤ score_performance pd ∧ score_performance pd ≤ 100) ∧
    (0 ≤ score_seo pd ∧ score_seo pd ≤ 100) ∧
    (0 ≤ score_content pd ∧ score_content pd ≤ 100) ∧
    (0 ≤ score_technical pd ∧ score_technical pd ≤ 100) := by
  refine ⟨⟨?_, score_performance_le_100 pd⟩, ⟨?_, score_seo_le_100 pd⟩,
    ⟨?_, score_content_le_100 pd⟩, ⟨?_, score_technical_le_100 pd⟩⟩
  · unfold score_performance; dsimp only; exact le_pyMax_left 0 _
  · unfold score_seo; dsimp only; exact le_pyMax_left 0 _
  · unfold score_content; dsimp only; exact le_pyMax_left 0 _
  · unfold score_technical; dsimp only; exact le_pyMax_left 0 _

/-- The title block subtracts exactly its table deduction. -/
lemma seo_title_stage_eq (t : String) (x : ℚ) :
    seo_title_stage t x = x -
      (if t = "" then (15 : ℚ)
       else if t.length < 30 then 5
       else if t.length > 60 then 5
       else 0) := by
  unfold seo_title_stage
  dsimp only
  split_ifs <;> ring

/-- The meta-description block subtracts exactly its table deduction. -/
lemma seo_meta_stage_eq (t : String) (x : ℚ) :
    seo_meta_stage t x = x -
      (if t = "" then (10 : ℚ)
       else if t.length < 120 then 5
       else if t.length > 160 then 5
       else 0) := by
  unfold seo_meta_stage
  dsimp only
  split_ifs <;> ring

/-- The H1 block subtracts exactly its table deduction: 10 when missing,
5 when duplicated. -/
lemma seo_h1_stage_eq (l : List String) (x : ℚ) :
    seo_h1_stage l x = x -
      (if l.length = 0 then (10 : ℚ)
       else if l.length > 1 then 5
       else 0) := by
  unfold seo_h1_stage
  split_ifs <;> ring

/-- The image-alt block subtracts exactly its table deduction; the code's
inner `if images` guard is redundant because a nonempty filtered list forces
a nonempty image list. -/
lemma seo_alt_stage_eq (l : List ImageData) (x : ℚ) :
    seo_alt_stage l x = x -
      (if (l.filter (fun img => pyStrip img.alt == "")).length ≠ 0 ∧
          ((l.filter (fun img => pyStrip img.alt == "")).length : ℚ) / (l.length : ℚ) * 100 > 50
        then (10 : ℚ)
        else if (l.filter (fun img => pyStrip img.alt == "")).length ≠ 0 ∧
          ((l.filter (fun img => pyStrip img.alt == "")).length : ℚ) / (l.length : ℚ) * 100 > 25
        then 5
        else 0) := by
  unfold seo_alt_stage
  dsimp only
  by_cases h0 : (l.filter (fun img => pyStrip img.alt == "")).length ≠ 0
  · have hl : l.length ≠ 0 := by
      intro hl
      apply h0
      have hle := List.length_filter_le (fun img => pyStrip img.alt == "") l
      omega
    rw [if_pos h0, if_pos hl]
    by_cases h1 :
        ((l.filter (fun img => pyStrip img.alt == "")).length : ℚ) / (l.length : ℚ) * 100 > 50
    · rw [if_pos h1, if_pos ⟨h0, h1⟩]
    · have hn1 : ¬((l.filter (fun img => pyStrip img.alt == "")).length ≠ 0 ∧
          ((l.filter (fun img => pyStrip img.alt == "")).length : ℚ) / (l.length : ℚ) * 100 > 50) :=
        fun hc => h1 hc.2
      rw [if_neg h1, if_neg hn1]
      by_cases h2 :
          ((l.filter (fun img => pyStrip img.alt == "")).length : ℚ) / (l.length : ℚ) * 100 > 25
      · rw [if_pos h2, if_pos ⟨h0, h2⟩]
      · have hn2 : ¬((l.filter (fun img => pyStrip img.alt == "")).length ≠ 0 ∧
            ((l.filter (fun img => pyStrip img.alt == "")).length : ℚ) / (l.length : ℚ) * 100 > 25) :=
          fun hc => h2 hc.2
        rw [if_neg h2, if_neg hn2]
        ring
  · have hn1 : ¬((l.filter (fun img => pyStrip img.alt == "")).length ≠ 0 ∧
        ((l.filter (fun img => pyStrip img.alt == "")).length : ℚ) / (l.length : ℚ) * 100 > 50) :=
      fun hc => h0 hc.1
    have hn2 : ¬((l.filter (fun img => pyStrip img.alt == "")).length ≠ 0 ∧
        ((l.filter (fun img => pyStrip img.alt == "")).length : ℚ) / (l.length : ℚ) * 100 > 25) :=
      fun hc => h0 hc.1
    rw [if_neg h0, if_neg hn1, if_neg hn2]
    ring

/-- The canonical block subtracts exactly its table deduction. -/
lemma seo_canonical_stage_eq (c : String) (x : ℚ) :
    seo_canonical_stage c x = x - (if c = "" then (5 : ℚ) else 0) := by
  unfold seo_canonical_stage
  split_ifs <;> ring

/-- The indexability block subtracts exactly its table deduction. -/
lemma seo_index_stage_eq (s : String) (x : ℚ) :
    seo_index_stage s x = x - (if s ≠ "indexable" then (20 : ℚ) else 0) := by
  unfold seo_index_stage
  split_ifs <;> ring

/-- C2 (amended): `_score_seo` implements the additive deduction table of the
code: missing title −15, title length outside [30,60] −5, missing meta
description −10, description length outside [120,160] −5, missing H1 −10,
duplicate H1 −5 (not −10), over 50% of images missing alt −10 and over 25%
−5, missing canonical −5, non-indexable −20, the result floored at 0. -/
theorem score_seo_closed_form (pd : PageData) :
    score_seo pd = pyMax 0 (100 -
      ((if pd.title = "" then (15 : ℚ)
        else if pd.title.length < 30 then 5
        else if pd.title.length > 60 then 5
        else 0) +
       (if pd.meta_description = "" then (10 : ℚ)
        else if pd.meta_description.length < 120 then 5
        else if pd.meta_description.length > 160 then 5
        else 0) +
       (if pd.h1_tags.length = 0 then (10 : ℚ)
        else if pd.h1_tags.length > 1 then 5
        else 0) +
       (if (pd.images.filter (fun img => pyStrip img.alt == "")).length ≠ 0 ∧
           ((pd.images.filter (fun img => pyStrip img.alt == "")).length : ℚ) /
             (pd.images.length : ℚ) * 100 > 50
        then (10 : ℚ)
        else if (pd.images.filter (fun img => pyStrip img.alt == "")).length ≠ 0 ∧
           ((pd.images.filter (fun img => pyStrip img.alt == "")).length : ℚ) /
             (pd.images.length : ℚ) * 100 > 25
        then 5
        else 0) +
       (if pd.canonical_url = "" then (5 : ℚ) else 0) +
       (if (match pd.indexability_analysis with
            | none => "indexable"
            | some sec => ((orEmpty {} sec).indexability_status).getD "indexable") ≠
            "indexable"
        then (20 : ℚ)
        else 0))) := by
  unfold score_seo
  cases pd.indexability_analysis with
  | none =>
    dsimp only
    rw [seo_title_stage_eq, seo_meta_stage_eq, seo_h1_stage_eq, seo_alt_stage_eq,
      seo_canonical_stage_eq]
    have hidx : ¬(("indexable" : String) ≠ "indexable") := fun hc => hc rfl
    rw [if_neg hidx]
    congr 1
    ring
  | some sec =>
    dsimp only
    rw [seo_title_stage_eq, seo_meta_stage_eq, seo_h1_stage_eq, seo_alt_stage_eq,
      seo_canonical_stage_eq, seo_index_stage_eq]
    congr 1
    ring

set_option maxRecDepth 8000 in
/-- C2 counterexample: a page whose only defect is a duplicate H1 scores 95
(−5) where the claimed table demands 90 (−10); a page whose only defect is
30% of images missing alt scores 95 (−5) where the claimed table demands
100 (no deduction). -/
theorem seo_deduction_table_cex :
    score_seo pageDuplicateH1 = 95 ∧ spec_score_seo pageDuplicateH1 = 90 ∧
    score_seo pageAlt30 = 95 ∧ spec_score_seo pageAlt30 = 100 := by
  refine ⟨?_, ?_, ?_, ?_⟩
  · simp +decide only [score_seo, seo_title_stage, seo_meta_stage, seo_h1_stage,
      seo_alt_stage, seo_canonical_stage, seo_index_stage, pageDuplicateH1, pyMax, List.filter]
    norm_num
  · simp +decide only [spec_score_seo, pageDuplicateH1, pyMax, List.filter]
    norm_num
  · simp +decide only [score_seo, seo_title_stage, seo_meta_stage, seo_h1_stage,
      seo_alt_stage, seo_canonical_stage, seo_index_stage, pageAlt30, pyMax, List.filter,
      (by decide : (pyStrip "x" == "") = false), (by decide : (pyStrip "" == "") = true)]
    norm_num
  · simp +decide only [spec_score_seo, pageAlt30, pyMax, List.filter,
      (by decide : (pyStrip "x" == "") = false), (by decide : (pyStrip "" == "") = true)]
    norm_num

/-- C5: when the Core Web Vitals analyzer throws, `analyze_page` stores the
`{'error': str(e)}` marker in only that section, every other enabled
analyzer's section carries its normal result, the call still returns (the
embedding is a total function, so no exception escapes), and the performance
category is scored as if the CWV section were absent — no CWV deduction is
applied. -/
theorem analyzer_failure_isolated (pd : PageData) (e : String) (pr : AdvancedPerformance)
    (rr : RenderLoading) (ir : Indexability) (sr : SecurityAnalysis) :
    let res := analyze_page { use_playwright_for_cwv := true }
      { cwv := .error e, advanced_performance := .ok pr, render_loading := .ok rr,
        indexability := .ok ir, security := .ok sr } pd
    res.1.core_web_vitals = some (.error e) ∧
    res.1.advanced_performance = some (.ok pr) ∧
    res.1.render_loading_analysis = some (.ok rr) ∧
    res.1.indexability_analysis = some (.ok ir) ∧
    res.1.security_analysis = some (.ok sr) ∧
    res.2 = some (calculate_page_score res.1) ∧
    (calculate_page_score res.1).category_scores.performance = score_performance res.1 ∧
    score_performance res.1 = score_performance { res.1 with core_web_vitals := none } := by
  dsimp only [analyze_page]
  refine ⟨rfl, rfl, rfl, rfl, rfl, rfl, rfl, ?_⟩
  simp +decide only [score_performance, perf_cwv_stage, orEmpty, if_true, if_false]

/-- The issue sort key order is total. -/
instance : IsTotal Issue issueLe :=
  ⟨fun a b => by
    unfold issueLe
    rcases lt_trichotomy (severity_order a.severity) (severity_order b.severity) with h | h | h
    · exact Or.inl (Or.inl h)
    · rcases le_total a.category b.category with hc | hc
      · exact Or.inl (Or.inr ⟨h, hc⟩)
      · exact Or.inr (Or.inr ⟨h.symm, hc⟩)
    · exact Or.inr (Or.inl h)⟩

/-- The issue sort key order is transitive. -/
instance : IsTrans Issue issueLe :=
  ⟨fun a b c hab hbc => by
    unfold issueLe at hab hbc ⊢
    rcases hab with h | ⟨h, hc⟩ <;> rcases hbc with g | ⟨g, gc⟩
    · exact Or.inl (by omega)
    · exact Or.inl (by omega)
    · exact Or.inl (by omega)
    · exact Or.inr ⟨by omega, le_trans hc gc⟩⟩

/-- `_get_top_issues` returns a list sorted by its `(severity rank, category)`
key: the insertion sort is sorted and a prefix of a sorted list is sorted. -/
lemma sorted_get_top_issues (issues : List Issue) (n : ℕ) :
    List.Sorted issueLe (get_top_issues issues n) := by
  unfold get_top_issues
  exact List.Pairwise.sublist (List.take_sublist n _)
    (List.sorted_insertionSort issueLe issues)

/-- Evaluating the category scores of the info-issue example page. -/
lemma score_performance_info_page : score_performance pageContentInfo = 100 := by decide

/-- Evaluating the category scores of the info-issue example page. -/
lemma score_seo_info_page : score_seo pageContentInfo = 100 := by decide

/-- Evaluating the category scores of the info-issue example page. -/
lemma score_technical_info_page : score_technical pageContentInfo = 100 := by decide

/-- Evaluating the category scores of the info-issue example page. -/
lemma score_content_info_page : score_content pageContentInfo = 50 := by
  simp +decide only [score_content, content_word_stage, content_dup_stage,
    content_heading_stage, pageContentInfo, pyMax]
  norm_num

/-- Evaluating the category scores of the warning-issue example page. -/
lemma score_performance_warn_page : score_performance pageContentWarning = 100 := by decide

/-- Evaluating the category scores of the warning-issue example page. -/
lemma score_technical_warn_page : score_technical pageContentWarning = 100 := by decide

/-- Evaluating the category scores of the warning-issue example page. -/
lemma score_seo_warn_page : score_seo pageContentWarning = 90 := by
  simp +decide only [score_seo, seo_title_stage, seo_meta_stage, seo_h1_stage,
    seo_alt_stage, seo_canonical_stage, seo_index_stage, pageContentWarning, pyMax,
    List.filter]
  norm_num

/-- Evaluating the category scores of the warning-issue example page. -/
lemma score_content_warn_page : score_content pageContentWarning = 40 := by
  simp +decide only [score_content, content_word_stage, content_dup_stage,
    content_heading_stage, pageContentWarning, pyMax]
  norm_num

/-- The info-issue example page yields exactly one content issue of severity
`info`. -/
lemma pageContentInfo_issues :
    (calculate_page_score pageContentInfo).issues =
      [{ category := "content", severity := "info",
         issue := "Content score is " ++ fmt1 50 ++ "/100",
         recommendation := "Improve content quality and reduce duplication" }] := by
  simp only [calculate_page_score, collect_page_issues, score_performance_info_page,
    score_seo_info_page, score_content_info_page, score_technical_info_page]
  norm_num

/-- The warning-issue example page yields exactly one content issue of
severity `warning`. -/
lemma pageContentWarning_issues :
    (calculate_page_score pageContentWarning).issues =
      [{ category := "content", severity := "warning",
         issue := "Content score is " ++ fmt1 40 ++ "/100",
         recommendation := "Improve content quality and reduce duplication" }] := by
  simp only [calculate_page_score, collect_page_issues, score_performance_warn_page,
    score_seo_warn_page, score_content_warn_page, score_technical_warn_page]
  norm_num

/-- The site-wide issue list of the two example pages, in page order: the
`info` issue of the first page precedes the `warning` issue of the second. -/
lemma example_site_wide_issues :
    (calculate_site_score [pageContentInfo, pageContentWarning]).site_wide_issues =
      [{ category := "content", severity := "info",
         issue := "Content score is " ++ fmt1 50 ++ "/100",
         recommendation := "Improve content quality and reduce duplication",
         page_url := some "https://example.com/info" },
       { category := "content", severity := "warning",
         issue := "Content score is " ++ fmt1 40 ++ "/100",
         recommendation := "Improve content quality and reduce duplication",
         page_url := some "https://example.com/warn" }] := by
  simp +decide only [calculate_site_score, site_all_issues, List.flatMap_cons,
    List.flatMap_nil, pageContentInfo_issues, pageContentWarning_issues, List.map_cons,
    List.map_nil, List.append_nil, List.nil_append, List.length_cons, List.length_nil]
  norm_num [pageContentInfo, pageContentWarning, List.take]

/-- The `top_issues` list of the two example pages: severity-sorted, so the
`warning` issue comes first. -/
lemma example_top_issues :
    (calculate_site_score [pageContentInfo, pageContentWarning]).top_issues =
      [{ category := "content", severity := "warning",
         issue := "Content score is " ++ fmt1 40 ++ "/100",
         recommendation := "Improve content quality and reduce duplication",
         page_url := some "https://example.com/warn" },
       { category := "content", severity := "info",
         issue := "Content score is " ++ fmt1 50 ++ "/100",
         recommendation := "Improve content quality and reduce duplication",
         page_url := some "https://example.com/info" }] := by
  simp +decide only [calculate_site_score, site_all_issues, List.flatMap_cons,
    List.flatMap_nil, pageContentInfo_issues, pageContentWarning_issues, List.map_cons,
    List.map_nil, List.append_nil, List.nil_append, List.length_cons, List.length_nil,
    get_top_issues, List.insertionSort, List.orderedInsert]
  norm_num [pageContentInfo, pageContentWarning, List.take, issueLe, severity_order]

/-- C6 counterexample: with two concrete pages, `site_wide_issues` is the
page-ordered list `[info, warning]` — not sorted by severity — while the
separate `top_issues` list is the severity-sorted `[warning, info]`. -/
theorem site_wide_issues_unsorted_cex :
    ((calculate_site_score [pageContentInfo, pageContentWarning]).site_wide_issues.map
      (fun i => i.severity)) = ["info", "warning"] ∧
    ¬ List.Pairwise (fun a b : Issue => severity_order a.severity ≤ severity_order b.severity)
      (calculate_site_score [pageContentInfo, pageContentWarning]).site_wide_issues ∧
    ((calculate_site_score [pageContentInfo, pageContentWarning]).top_issues.map
      (fun i => i.severity)) = ["warning", "info"] := by
  refine ⟨?_, ?_, ?_⟩
  · rw [example_site_wide_issues]
    rfl
  · rw [example_site_wide_issues]
    intro h
    rcases List.pairwise_cons.mp h with ⟨hr, _⟩
    exact absurd (hr _ (List.mem_cons_self _ _)) (by decide)
  · rw [example_top_issues]
    rfl

/-- The `site_wide_issues` field is exactly the page-ordered tagged issue
list truncated to 100 (in both the empty and the nonempty branch). -/
lemma site_wide_issues_eq (pages : List PageData) :
    (calculate_site_score pages).site_wide_issues = (site_all_issues pages).take 100 := by
  unfold calculate_site_score
  split_ifs with h
  · rw [List.length_eq_zero.mp h]
    rfl
  · rfl

/-- The `top_issues` field is exactly `_get_top_issues` of the tagged issue
list with the cap 20 (in both branches). -/
lemma top_issues_eq (pages : List PageData) :
    (calculate_site_score pages).top_issues = get_top_issues (site_all_issues pages) 20 := by
  unfold calculate_site_score
  split_ifs with h
  · rw [List.length_eq_zero.mp h]
    rfl
  · rfl

/-- C6 (amended): `calculate_site_score` tags every site-wide issue with its
source page URL and truncates the page-ordered issue list to the first 100
without sorting it; the severity-sorted list is the separate `top_issues`
field, capped at 20. -/
theorem site_issues_tagged_capped (pages : List PageData) :
    (calculate_site_score pages).site_wide_issues = (site_all_issues pages).take 100 ∧
    (calculate_site_score pages).site_wide_issues.length ≤ 100 ∧
    (∀ i ∈ (calculate_site_score pages).site_wide_issues,
      ∃ p ∈ pages, i.page_url = some p.url) ∧
    (calculate_site_score pages).top_issues = get_top_issues (site_all_issues pages) 20 ∧
    List.Sorted issueLe (calculate_site_score pages).top_issues ∧
    List.Pairwise (fun a b : Issue => severity_order a.severity ≤ severity_order b.severity)
      (calculate_site_score pages).top_issues ∧
    (calculate_site_score pages).top_issues.length ≤ 20 := by
  have heq := site_wide_issues_eq pages
  have htop := top_issues_eq pages
  refine ⟨heq, ?_, ?_, htop, ?_, ?_, ?_⟩
  · rw [heq]
    exact List.length_take_le _ _
  · intro i hi
    rw [heq] at hi
    have hi2 := List.take_subset 100 _ hi
    rcases List.mem_flatMap.mp hi2 with ⟨p, hp, hmem⟩
    rcases List.mem_map.mp hmem with ⟨i0, _, rfl⟩
    exact ⟨p, hp, rfl⟩
  · rw [htop]
    exact sorted_get_top_issues _ _
  · rw [htop]
    exact (sorted_get_top_issues _ _).imp
      (fun h => by rcases h with h | ⟨h, _⟩ <;> omega)
  · rw [htop]
    unfold get_top_issues
    exact List.length_take_le _ _

/-- C6 witness: the amended statement instantiated at the two example pages,
with the tagging conjunct applied to the first concrete issue. -/
theorem site_issues_tagged_capped_witness :
    (calculate_site_score [pageContentInfo, pageContentWarning]).site_wide_issues =
      (site_all_issues [pageContentInfo, pageContentWarning]).take 100 ∧
    (∃ p ∈ [pageContentInfo, pageContentWarning],
      ({ category := "content", severity := "info",
         issue := "Content score is " ++ fmt1 50 ++ "/100",
         recommendation := "Improve content quality and reduce duplication",
         page_url := some "https://example.com/info" } : Issue).page_url = some p.url) ∧
    List.Sorted issueLe
      (calculate_site_score [pageContentInfo, pageContentWarning]).top_issues := by
  have h := site_issues_tagged_capped [pageContentInfo, pageContentWarning]
  refine ⟨h.1, ?_, h.2.2.2.2.1⟩
  exact h.2.2.1 _ (by rw [example_site_wide_issues]; exact List.mem_cons_self _ _)

/-- The membership characterization of `_collect_page_issues`: an issue is in
the list exactly when its category's score is below 70 and it is that
category's issue record. -/
lemma mem_collect_page_issues {pd : PageData} {s : CategoryScores} {i : Issue} :
    i ∈ collect_page_issues pd s ↔
      (s.performance < 70 ∧ i =
        { category := "performance",
          severity := if s.performance < 50 then "warning" else "info",
          issue := "Performance score is " ++ fmt1 s.performance ++ "/100",
          recommendation := "Improve Core Web Vitals and reduce render-blocking resources" }) ∨
      (s.seo < 70 ∧ i =
        { category := "seo",
          severity := if s.seo < 50 then "warning" else "info",
          issue := "SEO score is " ++ fmt1 s.seo ++ "/100",
          recommendation := "Fix on-page SEO elements (title, meta, headings, images)" }) ∨
      (s.content < 70 ∧ i =
        { category := "content",
          severity := if s.content < 50 then "warning" else "info",
          issue := "Content score is " ++ fmt1 s.content ++ "/100",
          recommendation := "Improve content quality and reduce duplication" }) ∨
      (s.technical < 70 ∧ i =
        { category := "technical",
          severity := if s.technical < 50 then "warning" else "info",
          issue := "Technical score is " ++ fmt1 s.technical ++ "/100",
          recommendation := "Fix technical issues (HTTPS, security headers, broken links)" }) := by
  unfold collect_page_issues
  by_cases h1 : s.performance < 70 <;> by_cases h2 : s.seo < 70 <;>
    by_cases h3 : s.content < 70 <;> by_cases h4 : s.technical < 70 <;>
    simp [h1, h2, h3, h4, or_assoc]

/-- One issue block's severity is determined by its category score alone. -/
lemma issue_block_characterization (s : CategoryScores) (x : ℚ) (i : Issue)
    (hx : categoryGet s i.category = x)
    (hsev : i.severity = if x < 50 then "warning" else "info")
    (hc : x < 70) :
    (i.severity = "warning" ∨ i.severity = "info") ∧ i.severity ≠ "critical" ∧
    i.severity ≠ "opportunity" ∧
    (i.severity = "warning" ↔ categoryGet s i.category < 50) ∧
    (i.severity = "info" ↔ 50 ≤ categoryGet s i.category ∧ categoryGet s i.category < 70) ∧
    categoryGet s i.category < 70 := by
  rw [hx, hsev]
  by_cases h50 : x < 50
  · rw [if_pos h50]
    refine ⟨Or.inl rfl, by decide, by decide, ?_, ?_, hc⟩
    · simp [h50]
    · constructor
      · intro hcontra
        exact absurd hcontra (by decide)
      · rintro ⟨hge, -⟩
        exact absurd h50 (not_lt.mpr hge)
  · rw [if_neg h50]
    refine ⟨Or.inr rfl, by decide, by decide, ?_, ?_, hc⟩
    · constructor
      · intro hcontra
        exact absurd hcontra (by decide)
      · intro hlt
        exact absurd hlt h50
    · simp [not_lt.mp h50, hc]

/-- C9: every issue the page-level collector emits has severity `warning`
exactly when its category's score is below 50 and `info` exactly when the
score is in [50, 70); no issue is emitted for a category scoring 70 or more,
and consequently no page-level or aggregated site-wide issue from this
collector is ever `critical` or `opportunity`. -/
theorem page_issue_severity_characterized :
    (∀ (pd : PageData) (s : CategoryScores) (i : Issue), i ∈ collect_page_issues pd s →
      (i.severity = "warning" ∨ i.severity = "info") ∧ i.severity ≠ "critical" ∧
      i.severity ≠ "opportunity" ∧
      (i.severity = "warning" ↔ categoryGet s i.category < 50) ∧
      (i.severity = "info" ↔ 50 ≤ categoryGet s i.category ∧ categoryGet s i.category < 70) ∧
      categoryGet s i.category < 70) ∧
    (∀ (pages : List PageData) (j : Issue),
      j ∈ (calculate_site_score pages).site_wide_issues →
      (j.severity = "warning" ∨ j.severity = "info")) := by
  have hmain : ∀ (pd : PageData) (s : CategoryScores) (i : Issue),
      i ∈ collect_page_issues pd s →
      (i.severity = "warning" ∨ i.severity = "info") ∧ i.severity ≠ "critical" ∧
      i.severity ≠ "opportunity" ∧
      (i.severity = "warning" ↔ categoryGet s i.category < 50) ∧
      (i.severity = "info" ↔ 50 ≤ categoryGet s i.category ∧ categoryGet s i.category < 70) ∧
      categoryGet s i.category < 70 := by
    intro pd s i hi
    rcases mem_collect_page_issues.mp hi with ⟨hc, rfl⟩ | ⟨hc, rfl⟩ | ⟨hc, rfl⟩ | ⟨hc, rfl⟩
    · exact issue_block_characterization s s.performance _ (categoryGet_performance s) rfl hc
    · exact issue_block_characterization s s.seo _ (categoryGet_seo s) rfl hc
    · exact issue_block_characterization s s.content _ (categoryGet_content s) rfl hc
    · exact issue_block_characterization s s.technical _ (categoryGet_technical s) rfl hc
  refine ⟨hmain, ?_⟩
  intro pages j hj
  rw [site_wide_issues_eq] at hj
  have hj2 := List.take_subset 100 _ hj
  rcases List.mem_flatMap.mp hj2 with ⟨p, hp, hmem⟩
  rcases List.mem_map.mp hmem with ⟨i0, hi0, rfl⟩
  exact (hmain p (calculate_page_score p).category_scores i0 hi0).1

/-- The concrete issue used to witness the severity characterization. -/
def warnIssue40 : Issue :=
  { category := "performance", severity := "warning",
    issue := "Performance score is " ++ fmt1 40 ++ "/100",
    recommendation := "Improve Core Web Vitals and reduce render-blocking resources" }

/-- The concrete category scores used to witness the severity
characterization. -/
def scores40 : CategoryScores :=
  { performance := 40, seo := 100, content := 100, technical := 100 }

/-- C9 witness: the characterization applied to a concrete performance issue
of a page scoring 40 on performance. -/
theorem page_issue_severity_characterized_witness :
    (warnIssue40.severity = "warning" ∨ warnIssue40.severity = "info") ∧
    (warnIssue40.severity = "warning" ↔ categoryGet scores40 warnIssue40.category < 50) ∧
    categoryGet scores40 warnIssue40.category < 70 := by
  have hmem : warnIssue40 ∈ collect_page_issues {} scores40 := by
    simp only [collect_page_issues, scores40, warnIssue40]
    norm_num
  have h := page_issue_severity_characterized.1 {} scores40 warnIssue40 hmem
  exact ⟨h.1, h.2.2.2.1, h.2.2.2.2.2⟩

/-- Key membership unfolded to an entry witness. -/
lemma mem_keysOf {α : Type} {l : List (String × α)} {w : String} :
    w ∈ keysOf l ↔ ∃ p ∈ l, p.1 = w := by
  simp [keysOf]

/-- One dict insertion adds exactly the new key to the key set. -/
lemma keysOf_dictInsert {α : Type} (acc : List (String × α)) (p : String × α) (w : String) :
    w ∈ keysOf (dictInsert acc p) ↔ w ∈ keysOf acc ∨ w = p.1 := by
  unfold dictInsert
  split_ifs with h
  · have hmem : p.1 ∈ keysOf acc := by
      rcases List.any_eq_true.mp h with ⟨q, hq, hbeq⟩
      exact mem_keysOf.mpr ⟨q, hq, beq_iff_eq.mp hbeq⟩
    have hkeys : keysOf (acc.map (fun q => if q.1 == p.1 then (q.1, p.2) else q)) =
        keysOf acc := by
      unfold keysOf
      rw [List.map_map]
      apply List.map_congr_left
      intro a _
      dsimp only [Function.comp]
      by_cases hq : (a.1 == p.1) = true
      · rw [if_pos hq]
      · rw [if_neg hq]
    rw [hkeys]
    constructor
    · exact Or.inl
    · rintro (hw | rfl)
      · exact hw
      · exact hmem
  · unfold keysOf
    rw [List.map_append]
    simp

/-- Folding insertions accumulates exactly the keys of both lists. -/
lemma keysOf_pyDict_aux {α : Type} (l : List (String × α)) :
    ∀ (acc : List (String × α)) (w : String),
      w ∈ keysOf (l.foldl dictInsert acc) ↔ w ∈ keysOf acc ∨ w ∈ keysOf l := by
  induction l with
  | nil =>
    intro acc w
    simp [keysOf]
  | cons p l ih =>
    intro acc w
    rw [List.foldl_cons, ih, keysOf_dictInsert]
    simp only [keysOf, List.map_cons, List.mem_cons]
    tauto

/-- `pyDict` preserves the key set of the binding list. -/
lemma keysOf_pyDict {α : Type} (l : List (String × α)) (w : String) :
    w ∈ keysOf (pyDict l) ↔ w ∈ keysOf l := by
  unfold pyDict
  rw [keysOf_pyDict_aux]
  simp [keysOf]

/-- The keys of `dict_common` are exactly the common keys. -/
lemma keysOf_dict_common {α β : Type} (d1 : List (String × α)) (d2 : List (String × β))
    (w : String) :
    w ∈ keysOf (dict_common d1 d2) ↔ w ∈ keysOf d1 ∧ w ∈ keysOf d2 := by
  unfold dict_common keysOf
  constructor
  · intro hw
    rcases List.mem_map.mp hw with ⟨p, hpf, rfl⟩
    rcases List.mem_filter.mp hpf with ⟨hp1, hpred⟩
    rcases List.any_eq_true.mp hpred with ⟨q, hq2, hbq⟩
    exact ⟨List.mem_map.mpr ⟨p, hp1, rfl⟩,
      List.mem_map.mpr ⟨q, hq2, beq_iff_eq.mp hbq⟩⟩
  · rintro ⟨hw1, hw2⟩
    rcases List.mem_map.mp hw1 with ⟨p, hp, rfl⟩
    rcases List.mem_map.mp hw2 with ⟨q, hq, hqe⟩
    refine List.mem_map.mpr ⟨p, List.mem_filter.mpr ⟨hp, ?_⟩, rfl⟩
    exact List.any_eq_true.mpr ⟨q, hq, beq_iff_eq.mpr hqe⟩

/-- The keys of `dict_unique` are exactly the one-sided keys. -/
lemma keysOf_dict_unique {α β : Type} (d1 : List (String × α)) (d2 : List (String × β))
    (w : String) :
    w ∈ keysOf (dict_unique d1 d2) ↔ w ∈ keysOf d1 ∧ w ∉ keysOf d2 := by
  unfold dict_unique keysOf
  constructor
  · intro hw
    rcases List.mem_map.mp hw with ⟨p, hpf, rfl⟩
    rcases List.mem_filter.mp hpf with ⟨hp1, hpred⟩
    have hall : d2.any (fun q => q.1 == p.1) = false := by
      cases hv : d2.any (fun q => q.1 == p.1)
      · rfl
      · rw [hv] at hpred
        exact absurd hpred (by decide)
    refine ⟨List.mem_map.mpr ⟨p, hp1, rfl⟩, ?_⟩
    intro hw2
    rcases List.mem_map.mp hw2 with ⟨q, hq, hqe⟩
    have := List.any_eq_false.mp hall q hq
    rw [beq_iff_eq] at this
    exact this hqe
  · rintro ⟨hw1, hw2⟩
    rcases List.mem_map.mp hw1 with ⟨p, hp, rfl⟩
    refine List.mem_map.mpr ⟨p, List.mem_filter.mpr ⟨hp, ?_⟩, rfl⟩
    have hall : d2.any (fun q => q.1 == p.1) = false := by
      apply List.any_eq_false.mpr
      intro q hq
      intro hqe
      exact hw2 (List.mem_map.mpr ⟨q, hq, beq_iff_eq.mp hqe⟩)
    rw [hall]
    rfl

/-- The untruncated common-keyword list covers exactly the shared terms. -/
lemma common_keywords_full_keys (kw1 kw2 : List (String × ℕ)) (w : String) :
    w ∈ (common_keywords_full kw1 kw2).map CommonKeyword.keyword ↔
      w ∈ keysOf kw1 ∧ w ∈ keysOf kw2 := by
  unfold common_keywords_full
  rw [List.map_map]
  have hc : (CommonKeyword.keyword ∘ fun p : String × ℕ =>
      ({ keyword := p.1, your_count := p.2,
         competitor_count := (dictLookup (pyDict kw2) p.1).getD 0,
         total := p.2 + (dictLookup (pyDict kw2) p.1).getD 0 } : CommonKeyword)) =
      Prod.fst := funext fun p => rfl
  rw [hc]
  rw [show List.map Prod.fst (dict_common (pyDict kw1) (pyDict kw2)) =
      keysOf (dict_common (pyDict kw1) (pyDict kw2)) from rfl]
  rw [keysOf_dict_common, keysOf_pyDict, keysOf_pyDict]

/-- The untruncated unique-keyword list covers exactly the one-sided terms. -/
lemma unique_keywords_full_keys (kw1 kw2 : List (String × ℕ)) (w : String) :
    w ∈ (unique_keywords_full kw1 kw2).map UniqueKeyword.keyword ↔
      w ∈ keysOf kw1 ∧ w ∉ keysOf kw2 := by
  unfold unique_keywords_full
  rw [List.map_map]
  have hc : (UniqueKeyword.keyword ∘ fun p : String × ℕ =>
      ({ keyword := p.1, count := p.2 } : UniqueKeyword)) = Prod.fst := funext fun p => rfl
  rw [hc]
  rw [show List.map Prod.fst (dict_unique (pyDict kw1) (pyDict kw2)) =
      keysOf (dict_unique (pyDict kw1) (pyDict kw2)) from rfl]
  rw [keysOf_dict_unique, keysOf_pyDict, keysOf_pyDict]

/-- Advanced analyzer: the untruncated common list covers exactly the shared terms. -/
lemma common_keywords_advanced_full_keys (kw1 kw2 : List (String × ℕ × ℚ)) (w : String) :
    w ∈ (common_keywords_advanced_full kw1 kw2).map CommonKeywordAdv.keyword ↔
      w ∈ keysOf kw1 ∧ w ∈ keysOf kw2 := by
  unfold common_keywords_advanced_full
  rw [List.map_map]
  have hc : (CommonKeywordAdv.keyword ∘ fun p : String × ℕ × ℚ =>
      ({ keyword := p.1, your_count := p.2.1,
         competitor_count := ((dictLookup (pyDict kw2) p.1).getD (0, 0)).1,
         your_importance := pyRound4 p.2.2,
         competitor_importance := pyRound4 ((dictLookup (pyDict kw2) p.1).getD (0, 0)).2,
         total_count := p.2.1 + ((dictLookup (pyDict kw2) p.1).getD (0, 0)).1,
         total_importance :=
           pyRound4 (p.2.2 + ((dictLookup (pyDict kw2) p.1).getD (0, 0)).2) } :
        CommonKeywordAdv)) = Prod.fst := funext fun p => rfl
  rw [hc]
  rw [show List.map Prod.fst (dict_common (pyDict kw1) (pyDict kw2)) =
      keysOf (dict_common (pyDict kw1) (pyDict kw2)) from rfl]
  rw [keysOf_dict_common, keysOf_pyDict, keysOf_pyDict]

/-- Advanced analyzer: the untruncated unique list covers exactly the one-sided terms. -/
lemma unique_keywords_advanced_full_keys (kw1 kw2 : List (String × ℕ × ℚ)) (w : String) :
    w ∈ (unique_keywords_advanced_full kw1 kw2).map UniqueKeywordAdv.keyword ↔
      w ∈ keysOf kw1 ∧ w ∉ keysOf kw2 := by
  unfold unique_keywords_advanced_full
  rw [List.map_map]
  have hc : (UniqueKeywordAdv.keyword ∘ fun p : String × ℕ × ℚ =>
      ({ keyword := p.1, count := p.2.1, importance := pyRound4 p.2.2 } :
        UniqueKeywordAdv)) = Prod.fst := funext fun p => rfl
  rw [hc]
  rw [show List.map Prod.fst (dict_unique (pyDict kw1) (pyDict kw2)) =
      keysOf (dict_unique (pyDict kw1) (pyDict kw2)) from rfl]
  rw [keysOf_dict_unique, keysOf_pyDict, keysOf_pyDict]

/-- Sorting then truncating only drops entries; members still come from the original list. -/
lemma mem_sorted_take_map {α β : Type} (r : α → α → Prop) [DecidableRel r]
    (l : List α) (f : α → β) (n : ℕ) {b : β}
    (hb : b ∈ ((l.insertionSort r).take n).map f) : b ∈ l.map f := by
  rcases List.mem_map.mp hb with ⟨e, he, rfl⟩
  have he2 : e ∈ l.insertionSort r := List.take_subset _ _ he
  exact List.mem_map.mpr ⟨e, (List.perm_insertionSort r l).subset he2, rfl⟩

/-- C7 (amended): before the top-20 (basic) / top-30 (advanced) truncation the
common set and the two unique sets partition the union of the input term sets
(each term falls in exactly one, by the three characterizations); the
returned truncated lists draw only from those disjoint sets, so no term ever
appears in more than one output, though a term can be dropped by the cap. -/
theorem keyword_sets_partition (kw1 kw2 : List (String × ℕ))
    (kwa1 kwa2 : List (String × ℕ × ℚ)) (w : String) :
    (w ∈ (common_keywords_full kw1 kw2).map CommonKeyword.keyword ↔
      w ∈ keysOf kw1 ∧ w ∈ keysOf kw2) ∧
    (w ∈ (unique_keywords_full kw1 kw2).map UniqueKeyword.keyword ↔
      w ∈ keysOf kw1 ∧ w ∉ keysOf kw2) ∧
    (w ∈ (unique_keywords_full kw2 kw1).map UniqueKeyword.keyword ↔
      w ∈ keysOf kw2 ∧ w ∉ keysOf kw1) ∧
    (w ∈ (find_common_keywords kw1 kw2).map CommonKeyword.keyword →
      w ∈ keysOf kw1 ∧ w ∈ keysOf kw2) ∧
    (w ∈ (find_unique_keywords kw1 kw2).map UniqueKeyword.keyword →
      w ∈ keysOf kw1 ∧ w ∉ keysOf kw2) ∧
    (w ∈ (find_unique_keywords kw2 kw1).map UniqueKeyword.keyword →
      w ∈ keysOf kw2 ∧ w ∉ keysOf kw1) ∧
    (w ∈ (find_common_keywords_advanced kwa1 kwa2).map CommonKeywordAdv.keyword →
      w ∈ keysOf kwa1 ∧ w ∈ keysOf kwa2) ∧
    (w ∈ (find_unique_keywords_advanced kwa1 kwa2).map UniqueKeywordAdv.keyword →
      w ∈ keysOf kwa1 ∧ w ∉ keysOf kwa2) := by
  refine ⟨common_keywords_full_keys kw1 kw2 w, unique_keywords_full_keys kw1 kw2 w,
    unique_keywords_full_keys kw2 kw1 w, ?_, ?_, ?_, ?_, ?_⟩
  · intro hw
    exact (common_keywords_full_keys kw1 kw2 w).mp (mem_sorted_take_map _ _ _ _ hw)
  · intro hw
    exact (unique_keywords_full_keys kw1 kw2 w).mp (mem_sorted_take_map _ _ _ _ hw)
  · intro hw
    exact (unique_keywords_full_keys kw2 kw1 w).mp (mem_sorted_take_map _ _ _ _ hw)
  · intro hw
    exact (common_keywords_advanced_full_keys kwa1 kwa2 w).mp (mem_sorted_take_map _ _ _ _ hw)
  · intro hw
    exact (unique_keywords_advanced_full_keys kwa1 kwa2 w).mp (mem_sorted_take_map _ _ _ _ hw)

/-- 21 distinct keywords with distinct descending counts. -/
def manyKeywords : List (String × ℕ) :=
  [("w01", 21), ("w02", 20), ("w03", 19), ("w04", 18), ("w05", 17), ("w06", 16),
   ("w07", 15), ("w08", 14), ("w09", 13), ("w10", 12), ("w11", 11), ("w12", 10),
   ("w13", 9), ("w14", 8), ("w15", 7), ("w16", 6), ("w17", 5), ("w18", 4),
   ("w19", 3), ("w20", 2), ("w21", 1)]

/-- C7 counterexample: with 21 unique keywords the top-20 truncation drops
the term `w21` from every output list, so the three returned sets do not
cover the union of the inputs. -/
theorem keyword_truncation_cex :
    ("w21", 1) ∈ manyKeywords ∧
    (find_unique_keywords manyKeywords []).length = 20 ∧
    "w21" ∉ (find_unique_keywords manyKeywords []).map UniqueKeyword.keyword ∧
    "w21" ∉ (find_common_keywords manyKeywords []).map CommonKeyword.keyword ∧
    "w21" ∉ (find_unique_keywords [] manyKeywords).map UniqueKeyword.keyword := by
  decide

/-- C7 witness: the partition statement applied to concrete keyword lists. -/
theorem keyword_sets_partition_witness :
    "seo" ∈ (common_keywords_full [("seo", 2)] [("seo", 3), ("rank", 1)]).map
      CommonKeyword.keyword ∧
    "rank" ∈ (unique_keywords_full [("seo", 3), ("rank", 1)] [("seo", 2)]).map
      UniqueKeyword.keyword ∧
    ("seo" ∈ keysOf [("seo", 2)] ∧ "seo" ∈ keysOf [("seo", 3), ("rank", 1)]) := by
  have h1 := keyword_sets_partition [("seo", 2)] [("seo", 3), ("rank", 1)] [] [] "seo"
  have h2 := keyword_sets_partition [("seo", 3), ("rank", 1)] [("seo", 2)] [] [] "rank"
  exact ⟨h1.1.mpr (by decide), h2.2.1.mpr (by decide),
    h1.2.2.2.1 (h1.1.mpr (by decide))⟩

/-- The cascade classifies an anchor as keyword-rich exactly when it is
non-empty, not in the 13-entry stoplist, contains no brand indicator, and
has at least two tokens or a single token longer than 4 characters. -/
lemma classify_anchor_keyword_iff (a : String) :
    (classify_anchor a == AnchorClass.keyword_rich) =
      (!(decide (pyStrip (pyLower a) = "" ∨ pyStrip (pyLower a) = " ")) &&
       !(generic_anchors.contains (pyStrip (pyLower a))) &&
       !(brand_indicators.any (fun ind => containsSubstr (pyStrip (pyLower a)) ind)) &&
       (decide (2 ≤ (pySplit (pyStrip (pyLower a))).length) ||
        decide (4 < (pyStrip (pyLower a)).length))) := by
  unfold classify_anchor
  dsimp only
  split_ifs <;>
    simp_all [List.any_eq_true, List.any_eq_false,
      (by decide : (AnchorClass.empty == AnchorClass.keyword_rich) = false),
      (by decide : (AnchorClass.generic == AnchorClass.keyword_rich) = false),
      (by decide : (AnchorClass.branded == AnchorClass.keyword_rich) = false),
      (by decide : (AnchorClass.keyword_rich == AnchorClass.keyword_rich) = true),
      (by decide : (AnchorClass.empty == AnchorClass.generic) = false),
      (by decide : (AnchorClass.generic == AnchorClass.generic) = true),
      (by decide : (AnchorClass.branded == AnchorClass.generic) = false),
      (by decide : (AnchorClass.keyword_rich == AnchorClass.generic) = false)]

/-- The cascade classifies an anchor as generic exactly when it is non-empty
and either matches the stoplist or is a short, non-branded single token. -/
lemma classify_anchor_generic_iff (a : String) :
    (classify_anchor a == AnchorClass.generic) =
      (!(decide (pyStrip (pyLower a) = "" ∨ pyStrip (pyLower a) = " ")) &&
       (generic_anchors.contains (pyStrip (pyLower a)) ||
        (!(brand_indicators.any (fun ind => containsSubstr (pyStrip (pyLower a)) ind)) &&
         !(decide (2 ≤ (pySplit (pyStrip (pyLower a))).length)) &&
         !(decide (4 < (pyStrip (pyLower a)).length))))) := by
  unfold classify_anchor
  dsimp only
  split_ifs <;>
    simp_all [List.any_eq_true, List.any_eq_false,
      (by decide : (AnchorClass.empty == AnchorClass.keyword_rich) = false),
      (by decide : (AnchorClass.generic == AnchorClass.keyword_rich) = false),
      (by decide : (AnchorClass.branded == AnchorClass.keyword_rich) = false),
      (by decide : (AnchorClass.keyword_rich == AnchorClass.keyword_rich) = true),
      (by decide : (AnchorClass.empty == AnchorClass.generic) = false),
      (by decide : (AnchorClass.generic == AnchorClass.generic) = true),
      (by decide : (AnchorClass.branded == AnchorClass.generic) = false),
      (by decide : (AnchorClass.keyword_rich == AnchorClass.generic) = false)]

/-- C8 (amended): `_analyze_anchor_texts` classifies an anchor as generic
exactly when its trimmed lowercase form matches the 13-entry stoplist or is
a short (≤ 4 chars) non-branded single token; as keyword-rich exactly when
it is non-empty, not in the stoplist, contains no brand-indicator substring,
and has ≥ 2 whitespace tokens or a single token longer than 4 characters;
the reported fraction is keyword-rich count over the total anchor count. -/
theorem anchor_classification_characterized (anchor_texts : List String)
    (h : anchor_texts ≠ []) :
    (analyze_anchor_texts anchor_texts).total = anchor_texts.length ∧
    (analyze_anchor_texts anchor_texts).keyword_rich =
      anchor_texts.countP (fun a =>
        !(decide (pyStrip (pyLower a) = "" ∨ pyStrip (pyLower a) = " ")) &&
        !(generic_anchors.contains (pyStrip (pyLower a))) &&
        !(brand_indicators.any (fun ind => containsSubstr (pyStrip (pyLower a)) ind)) &&
        (decide (2 ≤ (pySplit (pyStrip (pyLower a))).length) ||
         decide (4 < (pyStrip (pyLower a)).length))) ∧
    (analyze_anchor_texts anchor_texts).generic =
      anchor_texts.countP (fun a =>
        !(decide (pyStrip (pyLower a) = "" ∨ pyStrip (pyLower a) = " ")) &&
        (generic_anchors.contains (pyStrip (pyLower a)) ||
         (!(brand_indicators.any (fun ind => containsSubstr (pyStrip (pyLower a)) ind)) &&
          !(decide (2 ≤ (pySplit (pyStrip (pyLower a))).length)) &&
          !(decide (4 < (pyStrip (pyLower a)).length))))) ∧
    (analyze_anchor_texts anchor_texts).keyword_rich_fraction =
      some (((analyze_anchor_texts anchor_texts).keyword_rich : ℚ) /
        ((analyze_anchor_texts anchor_texts).total : ℚ)) := by
  have hlen : ¬(anchor_texts.length = 0) := by
    simpa [List.length_eq_zero] using h
  unfold analyze_anchor_texts
  rw [if_neg hlen]
  refine ⟨rfl, ?_, ?_, rfl⟩
  · exact List.countP_congr (fun a _ => by rw [classify_anchor_keyword_iff a])
  · exact List.countP_congr (fun a _ => by rw [classify_anchor_generic_iff a])

/-- C8 counterexample: `learn more` has two tokens and is not in the claimed
five-entry stoplist, so the claim calls it keyword-rich, but the code's
stoplist contains it and counts it generic (fraction 0); `go home` is
classified branded (contains `home`), not keyword-rich; the single long word
`awesome` is classified keyword-rich though it has only one token. -/
theorem anchor_stoplist_cex :
    (analyze_anchor_texts ["learn more"]).keyword_rich = 0 ∧
    (analyze_anchor_texts ["learn more"]).generic = 1 ∧
    (analyze_anchor_texts ["learn more"]).keyword_rich_fraction = some 0 ∧
    spec_is_keyword_rich "learn more" = true ∧
    spec_is_generic "learn more" = false ∧
    classify_anchor "go home" = AnchorClass.branded ∧
    spec_is_keyword_rich "go home" = true ∧
    classify_anchor "awesome" = AnchorClass.keyword_rich ∧
    spec_is_keyword_rich "awesome" = false := by
  refine ⟨by decide, by decide, ?_, by decide, by decide, by decide, by decide, by decide,
    by decide⟩
  simp +decide only [analyze_anchor_texts, List.countP_cons, List.countP_nil,
    (by decide : (classify_anchor "learn more" == AnchorClass.keyword_rich) = false)]
  norm_num

/-- C8 witness: the characterization applied to a concrete anchor list. -/
theorem anchor_classification_characterized_witness :
    (analyze_anchor_texts ["seo tools", "go"]).total = (["seo tools", "go"] : List String).length ∧
    (analyze_anchor_texts ["seo tools", "go"]).keyword_rich =
      (["seo tools", "go"] : List String).countP (fun a =>
        !(decide (pyStrip (pyLower a) = "" ∨ pyStrip (pyLower a) = " ")) &&
        !(generic_anchors.contains (pyStrip (pyLower a))) &&
        !(brand_indicators.any (fun ind => containsSubstr (pyStrip (pyLower a)) ind)) &&
        (decide (2 ≤ (pySplit (pyStrip (pyLower a))).length) ||
         decide (4 < (pyStrip (pyLower a)).length))) ∧
    (analyze_anchor_texts ["seo tools", "go"]).generic =
      (["seo tools", "go"] : List String).countP (fun a =>
        !(decide (pyStrip (pyLower a) = "" ∨ pyStrip (pyLower a) = " ")) &&
        (generic_anchors.contains (pyStrip (pyLower a)) ||
         (!(brand_indicators.any (fun ind => containsSubstr (pyStrip (pyLower a)) ind)) &&
          !(decide (2 ≤ (pySplit (pyStrip (pyLower a))).length)) &&
          !(decide (4 < (pyStrip (pyLower a)).length))))) ∧
    (analyze_anchor_texts ["seo tools", "go"]).keyword_rich_fraction =
      some (((analyze_anchor_texts ["seo tools", "go"]).keyword_rich : ℚ) /
        ((analyze_anchor_texts ["seo tools", "go"]).total : ℚ)) :=
  anchor_classification_characterized ["seo tools", "go"] (by decide)

end Crawler
